import Mathlib

/-!
Shallow embedding of the sih_backend crop-advice service
(`services/excel_service.py`, `services/soil_service.py`,
`services/date_service.py`, `services/gemini_service.py`)
and verification of the frozen claims about it.

Strings are modelled as `List Char` internally (Python `str` is a
character sequence); machine floats in the source are modelled as `ℚ`.
-/

namespace SIH

/-! ### Character classes (Python `str.lower`, regex `\s`, `\w`, ASCII model) -/

/-- Regex `\s` whitespace class (ASCII part). -/
def isWS (c : Char) : Bool :=
  (c == ' ') || (c == '\t') || (c == '\n') || (c == '\r') || (c == '\x0b') || (c == '\x0c')

def isLowerAlpha (c : Char) : Bool := 97 ≤ c.toNat && c.toNat ≤ 122

def isUpperAlpha (c : Char) : Bool := 65 ≤ c.toNat && c.toNat ≤ 90

def isDigitCh (c : Char) : Bool := 48 ≤ c.toNat && c.toNat ≤ 57

def isAlphaCh (c : Char) : Bool := isLowerAlpha c || isUpperAlpha c

/-- Regex `\w` word character. -/
def wordCh (c : Char) : Bool := isAlphaCh c || isDigitCh c || (c == '_')

/-- Python `str.lower` on one character (ASCII model). -/
def pyLowerCh (c : Char) : Char :=
  if isUpperAlpha c then Char.ofNat (c.toNat + 32) else c

/-- Python `str.upper` on one character (ASCII model). -/
def pyUpperCh (c : Char) : Char :=
  if isLowerAlpha c then Char.ofNat (c.toNat - 32) else c

/-! ### Basic string operations -/

/-- Python `str.strip()` (drop leading and trailing whitespace). -/
def stripWSList (l : List Char) : List Char :=
  ((l.dropWhile isWS).reverse.dropWhile isWS).reverse

/-- `re.sub(r"\s+", " ", ·)`: replace every maximal whitespace run by one space. -/
def collapseWS : List Char → List Char
  | [] => []
  | [c] => if isWS c then [' '] else [c]
  | c :: d :: rest =>
    if isWS c then
      (if isWS d then collapseWS (d :: rest) else ' ' :: collapseWS (d :: rest))
    else c :: collapseWS (d :: rest)

/-- `re.sub(r"\s+", " ", ·).strip()`. -/
def collapseStrip (l : List Char) : List Char := stripWSList (collapseWS l)

/-- Python `needle in hay` substring test. -/
def containsSubList (n : List Char) : List Char → Bool
  | [] => n.isEmpty
  | c :: rest => n.isPrefixOf (c :: rest) || containsSubList n rest

/-- Worker for `str.replace`: left-to-right non-overlapping replacement;
`skip` counts matched characters still to drop after an accepted match. -/
def replaceAux (k v : List Char) : Nat → List Char → List Char
  | _, [] => []
  | 0, c :: rest =>
    if k.isPrefixOf (c :: rest) then v ++ replaceAux k v (k.length - 1) rest
    else c :: replaceAux k v 0 rest
  | n + 1, _ :: rest => replaceAux k v n rest

/-- Python `str.replace(k, v)` for non-empty `k` (all call sites use non-empty `k`). -/
def replaceSubList (k v l : List Char) : List Char :=
  if k.isEmpty then l else replaceAux k v 0 l

/-! ### `excel_service._normalize_soil_name` -/

def stopwords : List (List Char) := ["soil".toList, "type".toList, "soils".toList]

/-- `run` is a reversed word-character run; test whether it is a stopword. -/
def isStopRun (run : List Char) : Bool := stopwords.contains run.reverse

/-- Emit an accumulated (reversed) word run: stopwords become a single space,
mirroring `re.sub(r"\b(soil|type|soils)\b", " ", ·)`. -/
def emitRun (run : List Char) : List Char :=
  if isStopRun run then [' '] else run.reverse

/-- Scanner for the stopword substitution; first argument is the reversed
current word-character run. -/
def stopSubAux : List Char → List Char → List Char
  | run, [] => emitRun run
  | run, c :: rest =>
    if wordCh c then stopSubAux (c :: run) rest
    else emitRun run ++ c :: stopSubAux [] rest

/-- `re.sub(r"\b(soil|type|soils)\b", " ", ·)`: every maximal `\w` run equal to
a stopword is replaced by a space (a partial run never matches both `\b`s). -/
def stopSub (l : List Char) : List Char := stopSubAux [] l

/-- `re.sub(r"[^a-z0-9\s\-]", " ", ·)`. -/
def punctSub (l : List Char) : List Char :=
  l.map (fun c => if isLowerAlpha c || isDigitCh c || isWS c || c == '-' then c else ' ')

/-- `_SYNONYMS` in its Python dict insertion order. -/
def SYNONYMS : List (String × String) :=
  [("regur", "black"), ("black cotton soil", "black"), ("black soil", "black"),
   ("alluvium", "alluvial"), ("alluvial soil", "alluvial"),
   ("loam", "loamy"), ("sandyloam", "sandy loam"), ("sandy-loam", "sandy loam"),
   ("sandy loam", "sandy loam"), ("clayey", "clay"),
   ("red soil", "red"), ("red-soil", "red")]

/-- The synonym loop: `for k, v in _SYNONYMS.items(): if k in s0: s0 = s0.replace(k, v)`. -/
def synLoop (l : List Char) : List Char :=
  SYNONYMS.foldl
    (fun s kv =>
      if containsSubList kv.1.toList s then replaceSubList kv.1.toList kv.2.toList s else s)
    l

/-- Body of `_normalize_soil_name` on a non-empty string: strip/lower, stopword
removal, punctuation removal, the (no-op by then) `/`,`_`,`,` replacements,
whitespace collapse, synonym loop, final collapse. -/
def normalizeList (l : List Char) : List Char :=
  collapseStrip (synLoop (collapseStrip (replaceSubList [','] [' ']
    (replaceSubList ['_'] [' '] (replaceSubList ['/'] [' ']
      (punctSub (stopSub ((stripWSList l).map pyLowerCh))))))))

/-- `excel_service._normalize_soil_name` (argument `none` models Python `None`;
`if not s: return ""` catches `None` and the empty string). -/
def normalize_soil_name (s : Option String) : String :=
  match s with
  | none => ""
  | some str => if str = "" then "" else String.mk (normalizeList str.toList)

/-- Shorthand for normalizing a plain string. -/
def norm (s : String) : String := normalize_soil_name (some s)

example : norm "Regur" = "black" := by rfl

example : norm "Black Cotton Soil" = "black cotton" := by rfl

example : norm "loam" = "loamy" := by rfl

example : norm "loamy" = "loamyy" := by rfl

example : norm "Sandy Loam" = "sandy loamy" := by rfl

example : norm "soil_type" = "soil type" := by rfl

/-! ### `excel_service._token_similarity` -/

/-- Python `str.split()` (split on whitespace runs, no empty tokens); the first
argument is the reversed current token. -/
def splitWSAux : List Char → List Char → List (List Char)
  | cur, [] => if cur.isEmpty then [] else [cur.reverse]
  | cur, c :: rest =>
    if isWS c then
      (if cur.isEmpty then splitWSAux [] rest else cur.reverse :: splitWSAux [] rest)
    else splitWSAux (c :: cur) rest

def splitWS (l : List Char) : List (List Char) := splitWSAux [] l

/-- First-occurrence de-duplication (Python `set` building / seen-set loops). -/
def dedupAux {α : Type} [DecidableEq α] (seen : List α) : List α → List α
  | [] => []
  | x :: rest => if x ∈ seen then dedupAux seen rest else x :: dedupAux (x :: seen) rest

def dedupFirst {α : Type} [DecidableEq α] (l : List α) : List α := dedupAux [] l

/-- `excel_service._token_similarity`: token-set overlap over the larger set. -/
def token_similarity (a b : String) : ℚ :=
  if a = "" || b = "" then 0
  else
    let ta := dedupFirst (splitWS a.toList)
    let tb := dedupFirst (splitWS b.toList)
    if ta.isEmpty || tb.isEmpty then 0
    else ((ta.filter (fun t => tb.contains t)).length : ℚ) / (max ta.length tb.length : ℚ)

/-! ### The reference dataset -/

/-- One dataset row after column-name normalization (`state, soil_type, season,
temperature_range, option_1..3`).  `none` models a missing (NaN) cell; `state`
is kept as the plain string a `astype(str)` conversion yields. -/
structure Row where
  state : String
  soil_type : Option String
  season : Option String
  temperature_range : Option String
  option_1 : Option String
  option_2 : Option String
  option_3 : Option String
deriving DecidableEq

/-- Python `astype(str)` on a possibly-NaN cell: NaN prints as `"nan"`. -/
def cellStr (o : Option String) : String := o.getD "nan"

def pyLowerStr (s : String) : String := String.mk (s.toList.map pyLowerCh)

def stripStr (s : String) : String := String.mk (stripWSList s.toList)

/-- Python `str.title()` scanner; the flag records whether the previous
character was cased (ASCII-alphabetic). -/
def titleAux : Bool → List Char → List Char
  | _, [] => []
  | prevAlpha, c :: rest =>
    (if isAlphaCh c then (if prevAlpha then pyLowerCh c else pyUpperCh c) else c)
      :: titleAux (isAlphaCh c) rest

def pyTitle (s : String) : String := String.mk (titleAux false s.toList)

/-! ### `excel_service.get_soils_for_state` and `check_soil_exists` -/

/-- `excel_service.get_soils_for_state` over an in-memory dataset. -/
def get_soils_for_state (df : List Row) (state : String) : List String :=
  if state = "" then []
  else
    let s := pyLowerStr (stripStr state)
    let subset := df.filter (fun r => pyLowerStr r.state == s)
    let soils := dedupFirst ((subset.filterMap Row.soil_type).map stripStr)
    (soils.filter (fun x => x ≠ "")).map pyTitle

/-- `excel_service.check_soil_exists`: exact/substring pass first, then the
token-overlap fallback with threshold `0.5`. -/
def check_soil_exists (df : List Row) (state soil_type : String) : Bool :=
  if state = "" || soil_type = "" then false
  else
    let soils := get_soils_for_state df state
    if soils.isEmpty then false
    else
      let user_norm := norm soil_type
      if user_norm = "" then false
      else
        let pass1 := soils.any (fun db =>
          let dn := norm db
          if dn = "" then false
          else (dn == user_norm) || containsSubList user_norm.toList dn.toList
                 || containsSubList dn.toList user_norm.toList)
        if pass1 then true
        else soils.any (fun db => (1 : ℚ) / 2 ≤ token_similarity user_norm (norm db))

/-! ### `excel_service._parse_temp_range_cell` -/

def splitOnChAux (sep : Char) : List Char → List Char → List (List Char)
  | cur, [] => [cur.reverse]
  | cur, c :: rest =>
    if c == sep then cur.reverse :: splitOnChAux sep [] rest
    else splitOnChAux sep (c :: cur) rest

/-- Python `str.split(sep)` for a one-character separator (keeps empty parts). -/
def splitOnCh (sep : Char) (l : List Char) : List (List Char) := splitOnChAux sep [] l

def digitsVal (ds : List Char) : Nat := ds.foldl (fun a c => a * 10 + (c.toNat - 48)) 0

/-- Python `float(...)` on the plain decimal literals occurring in temperature
cells: optional sign, digits, optional fractional part (exponent/inf forms are
not used by the dataset and are not modelled). `none` models `ValueError`. -/
def pyFloat (l : List Char) : Option ℚ :=
  let t := stripWSList l
  let p : Bool × List Char :=
    match t with
    | '-' :: r => (true, r)
    | '+' :: r => (false, r)
    | _ => (false, t)
  let ip := p.2.takeWhile isDigitCh
  let rest := p.2.dropWhile isDigitCh
  match rest with
  | [] =>
    if ip.isEmpty then none
    else some (if p.1 then -(digitsVal ip : ℚ) else (digitsVal ip : ℚ))
  | '.' :: fr =>
    let fp := fr.takeWhile isDigitCh
    let rest2 := fr.dropWhile isDigitCh
    if ¬ rest2.isEmpty then none
    else if ip.isEmpty && fp.isEmpty then none
    else
      let mag : ℚ := (digitsVal ip : ℚ) + (digitsVal fp : ℚ) / (10 ^ fp.length : ℚ)
      some (if p.1 then -mag else mag)
  | _ => none

/-- `excel_service._parse_temp_range_cell`.  A `none` cell models a missing
value (Python `None`; a NaN cell stringifies to `"nan"` whose float parse never
satisfies `lo <= t <= hi`, so `none` is faithful for the filter). -/
def parse_temp_range_cell (cell : Option String) : Option (ℚ × ℚ) :=
  match cell with
  | none => none
  | some s =>
    let l1 := replaceSubList ['c'] [] (replaceSubList ['C'] [] (replaceSubList ['°'] [] s.toList))
    let l2 := replaceSubList [','] [' ']
      (replaceSubList "to".toList ['-'] (replaceSubList ['—'] ['-'] (replaceSubList ['–'] ['-'] l1)))
    let parts := ((splitOnCh '-' l2).map stripWSList).filter (fun p => ¬ p.isEmpty)
    match parts with
    | p0 :: p1 :: _ =>
      match pyFloat p0, pyFloat p1 with
      | some a, some b => some (a, b)
      | _, _ => none
    | _ =>
      match pyFloat (stripWSList l2) with
      | some v => some (v, v)
      | none => none

/-! ### `excel_service.query_crops` -/

structure CropQueryResult where
  crops : List String
  no_match : Bool
deriving DecidableEq

/-- Normalization of a `soil_type` cell as `query_crops` applies it (a NaN cell
stringifies to `"nan"` before normalization). -/
def rowSoilNorm (r : Row) : String := normalize_soil_name (some (cellStr r.soil_type))

/-- The season predicate of `query_crops`: no filter when `season` is falsy. -/
def seasonOk (r : Row) (season : Option String) : Bool :=
  match season with
  | none => true
  | some se => if se = "" then true else pyLowerStr (cellStr r.season) == pyLowerStr se

/-- The region+soil+season mask of `query_crops` (soil by exact normalized
equality; no soil filter when `soil_type` is the empty string). -/
def filterRSS (df : List Row) (state soil_type : String) (season : Option String) : List Row :=
  df.filter (fun r =>
    (pyLowerStr r.state == pyLowerStr state)
    && (if soil_type ≠ "" then rowSoilNorm r == norm soil_type else true)
    && seasonOk r season)

/-- One row's temperature test: its parsed range must contain `t`. -/
def rowTempMatch (t : ℚ) (r : Row) : Bool :=
  match parse_temp_range_cell r.temperature_range with
  | some (lo, hi) => decide (lo ≤ t) && decide (t ≤ hi)
  | none => false

/-- The row set `query_crops` ends up with: the region+soil+season filter,
then the temperature narrowing that is skipped when it would leave no rows. -/
def selectedRows (df : List Row) (state soil_type : String) (temperature : Option ℚ)
    (season : Option String) : List Row :=
  let filtered := filterRSS df state soil_type season
  match temperature with
  | none => filtered
  | some t =>
    if filtered.isEmpty then filtered
    else
      let rows := filtered.filter (rowTempMatch t)
      if rows.isEmpty then filtered else rows

/-- The option cells of one row, in order, NaN skipped, each stripped. -/
def rowOptions (r : Row) : List String :=
  (([r.option_1, r.option_2, r.option_3].filterMap id).map stripStr)

def collectOptions (rows : List Row) : List String := (rows.map rowOptions).flatten

/-- `excel_service.query_crops`. -/
def query_crops (df : List Row) (state soil_type : String) (temperature : Option ℚ)
    (season : Option String) : CropQueryResult :=
  let filtered := selectedRows df state soil_type temperature season
  if filtered.isEmpty then ⟨[], true⟩
  else ⟨dedupFirst (collectOptions filtered), false⟩

/-! ### `excel_service.query_crops_for_soil` (and `..._with_seasons`) -/

/-- The state-agnostic soil(+season) mask shared by `query_crops_for_soil` and
`query_crops_for_soil_with_seasons`. -/
def soilFiltered (df : List Row) (soil_type : String) (season : Option String) : List Row :=
  df.filter (fun r => (rowSoilNorm r == norm soil_type) && seasonOk r season)

/-- Temperature narrowing of the state-agnostic queries (same keep-on-empty
rule as `query_crops`). -/
def selectedRowsGlobal (df : List Row) (soil_type : String) (temperature : Option ℚ)
    (season : Option String) : List Row :=
  let filtered := soilFiltered df soil_type season
  match temperature with
  | none => filtered
  | some t =>
    if filtered.isEmpty then filtered
    else
      let rows := filtered.filter (rowTempMatch t)
      if rows.isEmpty then filtered else rows

/-- Inner option loop of `query_crops_for_soil`: appends every non-NaN option
occurrence (duplicates included) and breaks once `limit` occurrences exist. -/
def collectRowLimited (limit : Nat) : List String → List (Option String) → List String
  | acc, [] => acc
  | acc, none :: rest => collectRowLimited limit acc rest
  | acc, some v :: rest =>
    let acc' := acc ++ [stripStr v]
    if limit ≤ acc'.length then acc' else collectRowLimited limit acc' rest

/-- Outer row loop of `query_crops_for_soil`. -/
def collectLimited (limit : Nat) : List String → List Row → List String
  | acc, [] => acc
  | acc, r :: rest =>
    let acc' := collectRowLimited limit acc [r.option_1, r.option_2, r.option_3]
    if limit ≤ acc'.length then acc' else collectLimited limit acc' rest

/-- `excel_service.query_crops_for_soil`: the cap counts raw option-cell
occurrences, de-duplication happens afterwards. -/
def query_crops_for_soil (df : List Row) (soil_type : String) (temperature : Option ℚ)
    (season : Option String) (limit : Nat) : List String :=
  if soil_type = "" then []
  else
    let filtered := selectedRowsGlobal df soil_type temperature season
    if filtered.isEmpty then []
    else (dedupFirst (collectLimited limit [] filtered)).take limit

structure CropEntry where
  crop : String
  season : Option String
deriving DecidableEq

/-- Inner option loop of `query_crops_for_soil_with_seasons`: de-duplicates via
the `seen` set before counting against `limit`. -/
def collectEntriesOpts (limit : Nat) (sv : Option String) :
    List String → List CropEntry → List (Option String) → List String × List CropEntry
  | seen, out, [] => (seen, out)
  | seen, out, none :: rest => collectEntriesOpts limit sv seen out rest
  | seen, out, some v :: rest =>
    let name := stripStr v
    if name ≠ "" && !(seen.contains name) then
      let out' := out ++ [⟨name, sv⟩]
      if limit ≤ out'.length then (name :: seen, out')
      else collectEntriesOpts limit sv (name :: seen) out' rest
    else collectEntriesOpts limit sv seen out rest

/-- Outer row loop of `query_crops_for_soil_with_seasons`. -/
def collectEntries (limit : Nat) : List String → List CropEntry → List Row → List CropEntry
  | _, out, [] => out
  | seen, out, r :: rest =>
    let sv := r.season.map stripStr
    let p := collectEntriesOpts limit sv seen out [r.option_1, r.option_2, r.option_3]
    if limit ≤ p.2.length then p.2 else collectEntries limit p.1 p.2 rest

/-- `excel_service.query_crops_for_soil_with_seasons`. -/
def query_crops_for_soil_with_seasons (df : List Row) (soil_type : String)
    (temperature : Option ℚ) (season : Option String) (limit : Nat) : List CropEntry :=
  if soil_type = "" then []
  else
    let filtered := selectedRowsGlobal df soil_type temperature season
    if filtered.isEmpty then []
    else collectEntries limit [] [] filtered

/-! Concrete dataset checks used while settling the claims. -/

def dfSandyLoam : List Row :=
  [⟨"punjab", some "Sandy Loam", some "Kharif", none, some "Rice", none, none⟩]

example : check_soil_exists dfSandyLoam "punjab" "Sandy" = true := by rfl

example : query_crops dfSandyLoam "punjab" "Sandy" none none = ⟨[], true⟩ := by rfl

def dfNoOptions : List Row :=
  [⟨"punjab", some "Black", some "Kharif", none, none, none, none⟩]

example : query_crops dfNoOptions "punjab" "black" none none = ⟨[], false⟩ := by rfl

def dfDupOptions : List Row :=
  [⟨"x", some "Black", some "Kharif", none, some "Wheat", some "Wheat", none⟩,
   ⟨"y", some "black", some "Rabi", none, some "Rice", some "Maize", none⟩]

example : query_crops_for_soil dfDupOptions "black" none none 3 = ["Wheat", "Rice"] := by rfl

example : dedupFirst (collectOptions (soilFiltered dfDupOptions "black" none))
    = ["Wheat", "Rice", "Maize"] := by rfl

example : parse_temp_range_cell (some "20–30°C") = some (20, 30) := by decide

example : parse_temp_range_cell (some " 25 C ") = some (25, 25) := by decide

example : parse_temp_range_cell (some "20 to 30") = some (20, 30) := by decide

/-! ### `date_service.get_season_from_date` -/

def daysInMonth (y m : Nat) : Nat :=
  if m = 2 then (if (y % 4 = 0 && y % 100 ≠ 0) || y % 400 = 0 then 29 else 28)
  else if m = 4 || m = 6 || m = 9 || m = 11 then 30 else 31

/-- The `datetime(year, month, day)` constructor validity check performed by
`strptime` after its regex match. -/
def validDate (y m d : Nat) : Bool :=
  1 ≤ y && y ≤ 9999 && 1 ≤ m && m ≤ 12 && 1 ≤ d && d ≤ daysInMonth y m

/-- `%Y`: exactly four digits. -/
def take4Digits : List Char → Option (Nat × List Char)
  | a :: b :: c :: d :: rest =>
    if isDigitCh a && isDigitCh b && isDigitCh c && isDigitCh d then
      some (digitsVal [a, b, c, d], rest)
    else none
  | _ => none

/-- Exactly two digits (ISO month/day fields). -/
def take2Digits : List Char → Option (Nat × List Char)
  | a :: b :: rest =>
    if isDigitCh a && isDigitCh b then some (digitsVal [a, b], rest) else none
  | _ => none

/-- `%m`/`%d` (`\d{1,2}`): candidate parses in greedy order (two digits first,
then one), so the caller can backtrack against the following literal. -/
def take12Digits : List Char → List (Nat × List Char)
  | a :: b :: rest =>
    (if isDigitCh a && isDigitCh b then [(digitsVal [a, b], rest)] else [])
      ++ (if isDigitCh a then [(digitsVal [a], b :: rest)] else [])
  | [a] => if isDigitCh a then [(digitsVal [a], [])] else []
  | [] => []

def firstSome {α β : Type} (l : List α) (f : α → Option β) : Option β :=
  match l with
  | [] => none
  | x :: rest =>
    match f x with
    | some b => some b
    | none => firstSome rest f

def expectCh (c : Char) : List Char → Option (List Char)
  | x :: rest => if x == c then some rest else none
  | [] => none

/-- Regex part of `strptime` for a `%Y<sep>%m<sep>%d` layout (full match). -/
def matchYMD (sep : Char) (l : List Char) : Option (Nat × Nat × Nat) :=
  match take4Digits l with
  | none => none
  | some (y, r1) =>
    match expectCh sep r1 with
    | none => none
    | some r2 =>
      firstSome (take12Digits r2) (fun mc =>
        match expectCh sep mc.2 with
        | none => none
        | some r4 =>
          firstSome (take12Digits r4) (fun dc =>
            if dc.2.isEmpty then some (y, mc.1, dc.1) else none))

/-- Regex part of `strptime` for a `%d<sep>%m<sep>%Y` layout (full match). -/
def matchDMY (sep : Char) (l : List Char) : Option (Nat × Nat × Nat) :=
  firstSome (take12Digits l) (fun dc =>
    match expectCh sep dc.2 with
    | none => none
    | some r2 =>
      firstSome (take12Digits r2) (fun mc =>
        match expectCh sep mc.2 with
        | none => none
        | some r4 =>
          match take4Digits r4 with
          | some (y, r5) => if r5.isEmpty then some (y, mc.1, dc.1) else none
          | none => none))

def validated (o : Option (Nat × Nat × Nat)) : Option (Nat × Nat × Nat) :=
  match o with
  | some (y, m, d) => if validDate y m d then some (y, m, d) else none
  | none => none

/-- `datetime.strptime(s, "%Y<sep>%m<sep>%d")` as `Option`. -/
def strptimeYMD (sep : Char) (l : List Char) : Option (Nat × Nat × Nat) :=
  validated (matchYMD sep l)

/-- `datetime.strptime(s, "%d<sep>%m<sep>%Y")` as `Option`. -/
def strptimeDMY (sep : Char) (l : List Char) : Option (Nat × Nat × Nat) :=
  validated (matchDMY sep l)

/-- `datetime.fromisoformat` on plain `YYYY-MM-DD` strings (the time-suffixed
ISO forms are not used by this service's callers and are not modelled). -/
def fromisoformatDate (l : List Char) : Option (Nat × Nat × Nat) :=
  match take4Digits l with
  | none => none
  | some (y, r1) =>
    match expectCh '-' r1 with
    | none => none
    | some r2 =>
      match take2Digits r2 with
      | none => none
      | some (m, r3) =>
        match expectCh '-' r3 with
        | none => none
        | some r4 =>
          match take2Digits r4 with
          | some (d, r5) => if r5.isEmpty then validated (some (y, m, d)) else none
          | none => none

/-- Month-to-season mapping of `get_season_from_date` (lines 13-19 of
`date_service.py`): note month 12 falls through to the `else` branch. -/
def seasonFromMonth (m : Nat) : String :=
  if 6 ≤ m && m ≤ 10 then "Kharif"
  else if m = 11 || m ≤ 3 then "Rabi"
  else "Zaid"

/-- `date_service.get_season_from_date`; `none` models the propagated parse
failure when no layout and no ISO fallback accepts the string. -/
def get_season_from_date (date_str : String) : Option String :=
  let l := date_str.toList
  let parsed :=
    (strptimeYMD '-' l).orElse (fun _ =>
      (strptimeDMY '-' l).orElse (fun _ =>
        (strptimeDMY '/' l).orElse (fun _ =>
          (strptimeYMD '/' l).orElse (fun _ => fromisoformatDate l))))
  parsed.map (fun t => seasonFromMonth t.2.1)

example : get_season_from_date "2024-07-15" = some "Kharif" := by rfl

example : get_season_from_date "2024-12-01" = some "Zaid" := by rfl

example : get_season_from_date "2024-04-20" = some "Zaid" := by rfl

example : get_season_from_date "15/07/2024" = some "Kharif" := by rfl

example : get_season_from_date "2024-13-01" = none := by rfl

/-! ### `gemini_service.month_to_season` (used for the divergence exhibit and
by `generate_advice`) -/

def month_to_season (month_name : Option String) : Option String :=
  match month_name with
  | none => none
  | some m =>
    if m = "" then none
    else
      let mn := pyLowerStr (stripStr m)
      if mn ∈ ["june", "july", "august", "september", "october"] then some "Kharif"
      else if mn ∈ ["november", "december", "january", "february", "march"] then some "Rabi"
      else if mn ∈ ["april", "may"] then some "Zaid"
      else none

example : month_to_season (some "December") = some "Rabi" := by rfl

/-! ### `soil_service`: averages, composition classifier, evidence resolver -/

/-- One entry of a SoilGrids `values` array (`value` may be missing). -/
structure SoilValue where
  value : Option ℚ
deriving DecidableEq

/-- The property arrays of a successful SoilGrids response. -/
structure SoilGridsProps where
  clay : List SoilValue
  sand : List SoilValue
  silt : List SoilValue
  ph : List SoilValue
  ocd : List SoilValue
deriving DecidableEq

/-- `soil_service._avg_values`. -/
def avg_values (arr : List SoilValue) : Option ℚ :=
  let vals := arr.filterMap SoilValue.value
  if vals.isEmpty then none else some (vals.sum / (vals.length : ℚ))

/-- `soil_service._classify_from_percentages` (missing values default to 0). -/
def classify_from_percentages (clay sand silt : Option ℚ) : String :=
  let c := clay.getD 0
  let s := sand.getD 0
  let si := silt.getD 0
  if 40 ≤ c then "Clay"
  else if 70 ≤ s then "Sandy"
  else if 40 ≤ s && 20 ≤ si then "Sandy Loam"
  else "Loamy"

structure SoilDetails where
  image_guess : Option String := none
  farmer_reported : Option String := none
  clay_pct : Option ℚ := none
  sand_pct : Option ℚ := none
  silt_pct : Option ℚ := none
  ph : Option ℚ := none
  organic_carbon : Option ℚ := none
  latlon : Option (ℚ × ℚ) := none
  error : Option String := none
deriving DecidableEq

/-- The result dict of `get_soil_type_async`. -/
structure SoilAssessment where
  soil_type : Option String := none
  source : Option String := none
  details : SoilDetails := {}
  verified : Bool := false
  expected_soils : List String := []
deriving DecidableEq

/-- Python truthiness of an optional string. -/
def optTruthy (o : Option String) : Bool :=
  match o with
  | none => false
  | some s => s ≠ ""

def apostrophe : String := (Char.ofNat 39).toString

/-- The `unknown_tokens` tuple of `get_soil_type_async`. -/
def unknown_tokens : List String :=
  ["don" ++ apostrophe ++ "t know", "dont know", "unknown", "na", "n/a", ""]

/-- The `except`-branch result of `get_soil_type_async`. -/
def errorAssessment (msg : String) : SoilAssessment :=
  { soil_type := some "Unknown", source := some "error",
    details := { error := some msg }, verified := false, expected_soils := [] }

/-- Steps 1-2 of `get_soil_type_async` (farmer-declared soil and its dataset
verification); `Sum.inl` models the early `return`. -/
def farmerStep (df : List Row) (state provided : Option String) (meaningful : Bool) :
    Sum SoilAssessment SoilAssessment :=
  let r0 : SoilAssessment := {}
  if meaningful then
    if optTruthy state then
      let st := state.getD ""
      let ex := check_soil_exists df st (provided.getD "")
      let r1 : SoilAssessment := { r0 with expected_soils := get_soils_for_state df st }
      if ex then
        Sum.inl { r1 with soil_type := provided, source := some "farmer_input_verified",
                          verified := true }
      else
        Sum.inr { r1 with soil_type := provided, source := some "farmer_input_unverified",
                          verified := false }
    else
      Sum.inr { r0 with soil_type := provided, source := some "farmer_input_unverified",
                        verified := false }
  else Sum.inr r0

/-- Step 3 of `get_soil_type_async` (image classifier); `Sum.inl` models the
early `return` of the image+farmer agreement branch.  Note the agreement test
is `strip().lower()` equality, not `_normalize_soil_name` equality. -/
def imageStep (df : List Row) (state provided : Option String)
    (imageSupplied contentsOk : Bool) (imgGuess : Option String) (r : SoilAssessment) :
    Sum SoilAssessment SoilAssessment :=
  if imageSupplied && contentsOk then
    match imgGuess with
    | some g =>
      if g ≠ "" then
        match provided with
        | some p =>
          if pyLowerStr (stripStr g) = pyLowerStr (stripStr p) then
            Sum.inl { r with
                      soil_type := some p,
                      source := some "image+farmer_verified",
                      verified := true,
                      expected_soils :=
                        if optTruthy state then get_soils_for_state df (state.getD "")
                        else r.expected_soils }
          else
            Sum.inr { r with
                      soil_type := some g,
                      source := some "image",
                      details := { r.details with image_guess := some g } }
        | none =>
          Sum.inr { r with
                    soil_type := some g,
                    source := some "image",
                    details := { r.details with image_guess := some g } }
      else Sum.inr r
    | none => Sum.inr r
  else Sum.inr r

/-- Step 4 of `get_soil_type_async` (geocoded SoilGrids composition evidence).
`geocode` is the combined Bhuvan-then-OpenWeather result; `sg` the SoilGrids
response; either being `none` models all failure modes of those collaborators. -/
def compoStep (df : List Row) (state pincode : Option String)
    (geocode : Option (ℚ × ℚ)) (sg : Option SoilGridsProps) (r : SoilAssessment) :
    SoilAssessment :=
  let latlon := if optTruthy pincode then geocode else none
  match latlon with
  | none => r
  | some ll =>
    match sg with
    | none => r
    | some props =>
      let clay_avg := avg_values props.clay
      let sand_avg := avg_values props.sand
      let silt_avg := avg_values props.silt
      let ph_avg := avg_values props.ph
      let oc_avg := avg_values props.ocd
      let inferred := classify_from_percentages clay_avg sand_avg silt_avg
      let r1 :=
        if optTruthy r.soil_type && (r.source == some "farmer_input_unverified") then
          if inferred ≠ "" &&
              pyLowerStr (stripStr inferred) ≠ pyLowerStr (stripStr (r.soil_type.getD "")) then
            { r with details := { r.details with farmer_reported := r.soil_type },
                     soil_type := some inferred, source := some "soilgrids", verified := false,
                     expected_soils :=
                       if optTruthy state then get_soils_for_state df (state.getD "") else [] }
          else
            if ¬ optTruthy r.soil_type then
              { r with soil_type := some inferred, source := some "soilgrids", verified := false }
            else r
        else
          if ¬ optTruthy r.soil_type then
            { r with soil_type := some inferred, source := some "soilgrids", verified := false }
          else r
      { r1 with
        details := { r1.details with
                     clay_pct := clay_avg,
                     sand_pct := sand_avg,
                     silt_pct := silt_avg,
                     ph := ph_avg,
                     organic_carbon := oc_avg,
                     latlon := some ll } }

/-- Step 5 of `get_soil_type_async` (the `Unknown`/`fallback` last resort). -/
def unknownFallbackStep (df : List Row) (state : Option String) (r : SoilAssessment) :
    SoilAssessment :=
  if ¬ optTruthy r.soil_type then
    { r with soil_type := some "Unknown", source := some "fallback", verified := false,
             expected_soils :=
               if optTruthy state then get_soils_for_state df (state.getD "")
               else r.expected_soils }
  else r

/-- The sequential step composition of `get_soil_type_async` (steps 1-5) once
`provided` and the meaningfulness flag are computed. -/
def resolveCore (df : List Row) (pincode state provided : Option String) (meaningful : Bool)
    (imageSupplied contentsOk : Bool) (imgGuess : Option String)
    (geocode : Option (ℚ × ℚ)) (sg : Option SoilGridsProps) : SoilAssessment :=
  match farmerStep df state provided meaningful with
  | Sum.inl final => final
  | Sum.inr r1 =>
    match imageStep df state provided imageSupplied contentsOk imgGuess r1 with
    | Sum.inl final => final
    | Sum.inr r2 => unknownFallbackStep df state (compoStep df state pincode geocode sg r2)

/-- `soil_service.get_soil_type_async` as a pure function.  External
collaborators appear as oracle arguments: `imageSupplied`/`contentsOk` model
the image upload and its read, `imgGuess` the local classifier result,
`geocode` and `sg` the geocoding and SoilGrids responses, and `pipelineError`
the outer `except` branch. -/
def get_soil_type_async (df : List Row) (pincode state city provided_soil_type : Option String)
    (imageSupplied contentsOk : Bool) (imgGuess : Option String)
    (geocode : Option (ℚ × ℚ)) (sg : Option SoilGridsProps) (pipelineError : Bool) :
    SoilAssessment :=
  if pipelineError then errorAssessment "error"
  else
    let provided : Option String :=
      match provided_soil_type with
      | none => none
      | some s => if stripStr s = "" then none else some (stripStr s)
    let meaningful :=
      match provided with
      | none => false
      | some p => !(unknown_tokens.contains (pyLowerStr (stripStr p)))
    resolveCore df pincode state provided meaningful imageSupplied contentsOk imgGuess geocode sg

def dfPunjabBlack : List Row :=
  [⟨"punjab", some "Black", some "Kharif", none, some "Rice", none, none⟩]

example :
    (get_soil_type_async dfPunjabBlack none (some "Punjab") none (some "black")
      false false none none none false).verified = true := by rfl

example :
    (get_soil_type_async dfPunjabBlack none (some "Punjab") none (some "black")
      false false none none none false).source = some "farmer_input_verified" := by rfl

example :
    (get_soil_type_async [] none none none (some "Regur")
      true true (some "Black") none none false).source = some "image" := by rfl

example :
    (get_soil_type_async [] none none none (some "Regur")
      true true (some "regur") none none false).source = some "image+farmer_verified" := by rfl

/-! ### `gemini_service`: text helpers -/

def joinSep (sep : String) : List String → String
  | [] => ""
  | x :: rest => rest.foldl (fun a b => a ++ sep ++ b) x

/-- `SEASON_WINDOWS` as (sowing, harvest) pairs. -/
def SEASON_WINDOWS (s : String) : Option (String × String) :=
  if s = "Kharif" then some ("June–July", "September–November")
  else if s = "Rabi" then some ("October–December", "February–April")
  else if s = "Zaid" then some ("April–May", "July–August")
  else none

/-- Finder for the non-greedy `(.*?)` body up to the next occurrence of the
closing delimiter `d` (regex `.` does not cross a newline): returns the body
and the text after the closing delimiter. -/
def findDelim (d : List Char) : List Char → Option (List Char × List Char)
  | [] => none
  | c :: rest =>
    if d.isPrefixOf (c :: rest) then some ([], (c :: rest).drop d.length)
    else if c == '\n' then none
    else
      match findDelim d rest with
      | some p => some (c :: p.1, p.2)
      | none => none

/-- `re.sub(d ++ "(.*?)" ++ d, "\1", ·)` for a literal delimiter `d`; the fuel
is the input length, which every recursive call strictly decreases. -/
def subDelimFuel (d : List Char) : Nat → List Char → List Char
  | _, [] => []
  | 0, l => l
  | fuel + 1, c :: rest =>
    if d.isPrefixOf (c :: rest) then
      match findDelim d ((c :: rest).drop d.length) with
      | some p => p.1 ++ subDelimFuel d fuel p.2
      | none => c :: subDelimFuel d fuel rest
    else c :: subDelimFuel d fuel rest

def subDelim (d l : List Char) : List Char := subDelimFuel d l.length l

/-- Pending-newline emitter for `re.sub(r"\n{3,}", "\n\n", ·)`. -/
def emitNL (n : Nat) : List Char := if 3 ≤ n then ['\n', '\n'] else List.replicate n '\n'

def collapseNLAux : Nat → List Char → List Char
  | n, [] => emitNL n
  | n, c :: rest =>
    if c == '\n' then collapseNLAux (n + 1) rest
    else emitNL n ++ c :: collapseNLAux 0 rest

def quoteCh : Char := Char.ofNat 39

/-- `gemini_service.clean_text`: strip `**…**` and `*…*` emphasis, unescape
quotes, collapse 3+ newlines, strip. -/
def clean_text (s : String) : String :=
  let l1 := subDelim ['*'] (subDelim ['*', '*'] s.toList)
  let l2 := replaceSubList ['\\', quoteCh] [quoteCh] (replaceSubList ['\\', '"'] ['"'] l1)
  String.mk (stripWSList (collapseNLAux 0 l2))

/-- `gemini_service.display_soil_label`. -/
def display_soil_label (name : Option String) : String :=
  if ¬ optTruthy name then ""
  else
    let s := stripStr (name.getD "")
    if containsSubList "soil".toList (pyLowerStr s).toList then s else s ++ " soil"

/-- `gemini_service._short_soil_note`. -/
def short_soil_note (soil_type : String) : Option String :=
  if soil_type = "" then none
  else
    let s := (pyLowerStr soil_type).toList
    if containsSubList "alluvial".toList s then
      some "Alluvial soils are generally fertile and hold water well."
    else if containsSubList "black".toList s || containsSubList "regur".toList s then
      some "Black soils hold water well because of high clay content."
    else if containsSubList "sandy".toList s then
      some "Sandy soils drain fast — add organic matter."
    else if containsSubList "clay".toList s then
      some "Clay soils can be heavy; organic matter helps."
    else none

/-! The `sowing[:\s]*([A-Za-z0-9–\-,\s]+)` / `harvest(?:ing)?[:\s]*(...)`
captures of `_fmt_sow_harv_from_season_or_token`. -/

/-- The capture class `[A-Za-z0-9–\-,\s]`. -/
def fmtClassCh (c : Char) : Bool :=
  isAlphaCh c || isDigitCh c || (c == '–') || (c == '-') || (c == ',') || isWS c

def colonWS (c : Char) : Bool := (c == ':') || isWS c

def prefixCI : List Char → List Char → Bool
  | [], _ => true
  | _ :: _, [] => false
  | p :: ps, c :: cs => (p == pyLowerCh c) && prefixCI ps cs

/-- After the matched label: skip `[:\s]*` greedily; a capture must start with
a class character, backtracking the skip one character at a time otherwise
(only a whitespace character can restart the capture, `:` is not in the
class). -/
def captureAfterLabel (rest : List Char) : Option (List Char) :=
  let run := rest.takeWhile colonWS
  let rem := rest.dropWhile colonWS
  match rem with
  | c :: _ =>
    if fmtClassCh c then some (rem.takeWhile fmtClassCh)
    else
      match (run.reverse.find? fun x => fmtClassCh x) with
      | some w => some [w]
      | none => none
  | [] =>
    match (run.reverse.find? fun x => fmtClassCh x) with
    | some w => some [w]
    | none => none

/-- `re.search(label ++ "[:\s]*([class]+)", ·, IGNORECASE)` for a literal
lowercase label. -/
def searchLabelCapture (label : List Char) : List Char → Option (List Char)
  | [] => none
  | c :: rest =>
    if prefixCI label (c :: rest) then
      match captureAfterLabel ((c :: rest).drop label.length) with
      | some cap => some cap
      | none => searchLabelCapture label rest
    else searchLabelCapture label rest

/-- `re.search(r"harvest(?:ing)?[:\s]*([class]+)", ·, IGNORECASE)`; the
optional greedy `(?:ing)?` is tried with `ing` first, then without. -/
def searchHarvestCapture : List Char → Option (List Char)
  | [] => none
  | c :: rest =>
    if prefixCI "harvest".toList (c :: rest) then
      let afterH := (c :: rest).drop 7
      let attempt :=
        if prefixCI "ing".toList afterH then
          match captureAfterLabel (afterH.drop 3) with
          | some cap => some cap
          | none => captureAfterLabel afterH
        else captureAfterLabel afterH
      match attempt with
      | some cap => some cap
      | none => searchHarvestCapture rest
    else searchHarvestCapture rest

/-- `gemini_service._fmt_sow_harv_from_season_or_token`. -/
def fmt_sow_harv_from_season_or_token (season_token season_months fallback_month : Option String) :
    String × String :=
  if optTruthy season_token then
    match SEASON_WINDOWS (season_token.getD "") with
    | some p => p
    | none => ("", "")
  else if optTruthy season_months then
    let l := (season_months.getD "").toList
    let sow :=
      match searchLabelCapture "sowing".toList l with
      | some cap => String.mk (stripWSList cap)
      | none => ""
    let harv :=
      match searchHarvestCapture l with
      | some cap => String.mk (stripWSList cap)
      | none => ""
    (sow, harv)
  else (fallback_month.getD "", "")

/-- `gemini_service._choose_fertilizers_for_soil_and_crop`. -/
def choose_fertilizers_for_soil_and_crop (soil_type : Option String) (ph_val oc_val : Option ℚ)
    (crop_name : Option String) : List String :=
  match ph_val with
  | some phv =>
    if phv < 6 then ["Compost", "Lime"]
    else if (7.5 : ℚ) < phv then ["Compost", "Micronutrient mix"]
    else ["Compost", "N-P-K mix"]
  | none =>
    let s := (pyLowerStr (soil_type.getD "")).toList
    if containsSubList "black".toList s then ["Compost", "N-P-K mix"]
    else if containsSubList "alluvial".toList s || containsSubList "loamy".toList s then
      ["Compost", "N-P-K mix"]
    else if containsSubList "sandy".toList s then ["Compost", "N-P-K mix"]
    else ["Compost", "N-P-K mix"]

/-! ### `gemini_service`: month and crop extraction from free text -/

/-- `_MONTHS_MAP` in Python dict insertion order. -/
def MONTHS_MAP : List (String × String) :=
  [("jan", "January"), ("january", "January"), ("feb", "February"), ("february", "February"),
   ("mar", "March"), ("march", "March"), ("apr", "April"), ("april", "April"), ("may", "May"),
   ("jun", "June"), ("june", "June"), ("jul", "July"), ("july", "July"),
   ("aug", "August"), ("august", "August"),
   ("sep", "September"), ("sept", "September"), ("september", "September"),
   ("oct", "October"), ("october", "October"), ("nov", "November"), ("november", "November"),
   ("dec", "December"), ("december", "December")]

/-- Try the month alternation at one position (keys in pattern order, each
needing a word boundary after the key). -/
def monthKeyMatchAt (l : List Char) : Option String :=
  firstSome MONTHS_MAP (fun kv =>
    if prefixCI kv.1.toList l &&
        (match l.drop kv.1.toList.length with
         | [] => true
         | d :: _ => !wordCh d) then
      some kv.2
    else none)

def extractMonthAux : Bool → List Char → Option String
  | _, [] => none
  | prev, c :: rest =>
    match (if !prev then monthKeyMatchAt (c :: rest) else none) with
    | some v => some v
    | none => extractMonthAux (wordCh c) rest

/-- `gemini_service.extract_month_from_text`. -/
def extract_month_from_text (text : Option String) : Option String :=
  if ¬ optTruthy text then none else extractMonthAux false (text.getD "").toList

/-- The word lists of `_CROP_PATTERNS`, in order. -/
def CROP_PHRASES : List (List String) :=
  [["what", "month", "do", "i", "grow"],
   ["when", "do", "i", "grow"],
   ["when", "should", "i", "plant"],
   ["when", "should", "i", "grow"],
   ["when", "to", "plant"],
   ["when", "to", "grow"],
   ["what", "month", "is", "best", "to", "grow"]]

/-- The capture class `[a-zA-Z0-9\s\-\&]` of the crop patterns. -/
def cropClassCh (c : Char) : Bool :=
  isAlphaCh c || isDigitCh c || isWS c || (c == '-') || (c == '&')

/-- The pattern tail `(?:\s+in\b|\s*\?|$)`. -/
def termMatchesQ (l : List Char) : Bool :=
  match l with
  | [] => true
  | c :: _ =>
    (isWS c &&
      (let r := l.dropWhile isWS
       prefixCI "in".toList r &&
         (match r.drop 2 with
          | [] => true
          | d :: _ => !wordCh d)))
    || (match l.dropWhile isWS with
        | x :: _ => x == '?'
        | [] => false)

/-- The lazy capture `([class]+?)` followed by the terminator: grow the capture
one class character at a time until the terminator matches. -/
def lazyCapAux (cap : List Char) : List Char → Option (List Char)
  | [] => if termMatchesQ [] then some cap else none
  | c :: rest =>
    if termMatchesQ (c :: rest) then some cap
    else if cropClassCh c then lazyCapAux (cap ++ [c]) rest
    else none

def lazyCapture : List Char → Option (List Char)
  | c :: rest => if cropClassCh c then lazyCapAux [c] rest else none
  | [] => none

/-- Greedy `\s+` before the capture, giving characters back one at a time when
the rest of the pattern fails. -/
def wsBacktrack : List Char → Option (List Char)
  | [] => none
  | c :: rest =>
    if isWS c then
      match wsBacktrack rest with
      | some cap => some cap
      | none => lazyCapture (c :: rest)
    else lazyCapture (c :: rest)

/-- Match `\s+([class]+?)(?:\s+in\b|\s*\?|$)` right after the phrase words. -/
def capAfterPhrase : List Char → Option (List Char)
  | c :: rest => if isWS c then wsBacktrack rest else none
  | [] => none

/-- Consume the literal phrase words separated by `\s+` (the final `\s+` is
left to `capAfterPhrase`). -/
def matchPhraseWords : List String → List Char → Option (List Char)
  | [], l => some l
  | [w], l => if prefixCI w.toList l then some (l.drop w.toList.length) else none
  | w :: rest, l =>
    if prefixCI w.toList l then
      let r := l.drop w.toList.length
      match r with
      | c :: _ => if isWS c then matchPhraseWords rest (r.dropWhile isWS) else none
      | [] => none
    else none

/-- `re.search` of one crop pattern: leftmost position (with a word boundary)
where phrase, whitespace, capture and terminator all match. -/
def searchCropPhrase (ws : List String) : Bool → List Char → Option (List Char)
  | _, [] => none
  | prev, c :: rest =>
    match (if !prev then (matchPhraseWords ws (c :: rest)).bind capAfterPhrase else none) with
    | some cap => some cap
    | none => searchCropPhrase ws (wordCh c) rest

/-- One alternative of `\b(in|this|next|now|here|there)\b` at this position. -/
def trailerWordAt (l : List Char) : Bool :=
  ["in", "this", "next", "now", "here", "there"].any (fun w =>
    prefixCI w.toList l &&
      (match l.drop w.toList.length with
       | [] => true
       | d :: _ => !wordCh d))

/-- `re.sub(r"\b(in|this|next|now|here|there)\b.*$", "", ·)`: cut from the
first whole-word trailer occurrence to the end. -/
def cutTrailerAux : Bool → List Char → List Char
  | _, [] => []
  | prev, c :: rest =>
    if (!prev) && trailerWordAt (c :: rest) then []
    else c :: cutTrailerAux (wordCh c) rest

/-- `gemini_service.extract_crop_from_query`. -/
def extract_crop_from_query (text : Option String) : Option String :=
  if ¬ optTruthy text then none
  else
    let t := stripWSList (text.getD "").toList
    firstSome CROP_PHRASES (fun ws =>
      match searchCropPhrase ws false t with
      | some cap =>
        let crop_raw := stripWSList cap
        let c1 := stripWSList (cutTrailerAux false crop_raw)
        let c2 := stripWSList (c1.filter (fun c => wordCh c || isWS c || c == '-' || c == '&'))
        if c2.isEmpty then none else some (pyTitle (String.mk c2))
      | none => none)

example : extract_month_from_text (some "can I sow in December now?") = some "December" := by rfl

example : extract_crop_from_query (some "what month do I grow rice in Punjab?") = some "Rice" := by
  rfl

example : extract_crop_from_query (some "hello there") = none := by rfl

/-! ### `gemini_service._build_but_block` and `_ensure_but_block_present` -/

/-- `gemini_service._build_but_block`.  Both branches begin with
`"But if you truly have <label>: "`. -/
def build_but_block (farmer_reported_soil : Option String) (entries : List CropEntry)
    (ph_val oc_val : Option ℚ) (month_name season season_months : Option String) : String :=
  let soil_label :=
    if optTruthy farmer_reported_soil then display_soil_label farmer_reported_soil
    else "the reported soil"
  if ¬ entries.isEmpty then
    let segments := entries.map (fun e =>
      let crop_name := e.crop
      let p := fmt_sow_harv_from_season_or_token e.season season_months month_name
      let ferts := choose_fertilizers_for_soil_and_crop farmer_reported_soil ph_val oc_val
        (some crop_name)
      let parts :=
        (if p.1 ≠ "" then ["Sowing: " ++ p.1] else [])
          ++ (if p.2 ≠ "" then ["Harvest: " ++ p.2] else [])
          ++ (if ¬ ferts.isEmpty then ["Fertilizer: " ++ joinSep ", " (ferts.take 2)] else [])
      if ¬ parts.isEmpty then crop_name ++ " — " ++ joinSep ". " parts ++ "."
      else crop_name ++ ".")
    "But if you truly have " ++ soil_label ++ ": " ++ joinSep " " segments
  else
    let ferts := choose_fertilizers_for_soil_and_crop farmer_reported_soil ph_val oc_val none
    "But if you truly have " ++ soil_label ++ ": consider crops suited to that soil. Fertilizer: "
      ++ joinSep ", " (ferts.take 2) ++ "."

/-- `re.search(r"\bbut\s+if\b", ·)` at one position. -/
def matchButIf (l : List Char) : Bool :=
  prefixCI "but".toList l &&
    (match l.drop 3 with
     | c :: _ =>
       isWS c &&
         (let r := (l.drop 3).dropWhile isWS
          prefixCI "if".toList r &&
            (match r.drop 2 with
             | [] => true
             | d :: _ => !wordCh d))
     | [] => false)

def scanButIfAux : Bool → List Char → Bool
  | _, [] => false
  | prev, c :: rest => ((!prev) && matchButIf (c :: rest)) || scanButIfAux (wordCh c) rest

/-- `re.search(r"\bbut\b(.*)$", ·, IGNORECASE | DOTALL)`: the text after the
first whole-word `but`. -/
def findWordButAux : Bool → List Char → Option (List Char)
  | _, [] => none
  | prev, c :: rest =>
    if (!prev) && prefixCI "but".toList (c :: rest) &&
        (match (c :: rest).drop 3 with
         | [] => true
         | d :: _ => !wordCh d) then
      some ((c :: rest).drop 3)
    else findWordButAux (wordCh c) rest

def kwAnySowHarvFert (l : List Char) : Bool :=
  ["sowing", "harvest", "fertil", "fertilizer", "fertilizers"].any
    (fun k => containsSubList k.toList l)

/-- The skip test of `_ensure_but_block_present`: an existing whole-word
`but if`, the reported soil mentioned anywhere in the text, and a
sowing/harvest/fertilizer keyword after the first `but`. -/
def butSkipCond (out_text f : String) : Bool :=
  let out_lower := pyLowerStr out_text
  (scanButIfAux false out_lower.toList && containsSubList (pyLowerStr f).toList out_lower.toList)
    && (match findWordButAux false out_text.toList with
        | some but_part => kwAnySowHarvFert (pyLowerStr (String.mk but_part)).toList
        | none => false)

/-- The `entries` computation of `_ensure_but_block_present`; `excelSome`
models whether an `excel_service` module object was passed. -/
def ensureEntries (df : List Row) (excelSome : Bool) (f : String) (temperature : Option ℚ)
    (season : Option String) : List CropEntry :=
  if excelSome then
    if (query_crops_for_soil_with_seasons df f temperature season 3).isEmpty then
      (query_crops_for_soil df f temperature season 3).map (fun n => ⟨n, none⟩)
    else query_crops_for_soil_with_seasons df f temperature season 3
  else []

/-- `gemini_service._ensure_but_block_present`. -/
def ensure_but_block_present (df : List Row) (excelSome : Bool) (out_text : String)
    (confirmed : Bool) (farmer_reported_soil : Option String) (ph_val oc_val : Option ℚ)
    (temperature : Option ℚ) (month_name season season_months : Option String) : String :=
  if confirmed || ¬ optTruthy farmer_reported_soil then out_text
  else if butSkipCond out_text (farmer_reported_soil.getD "") then out_text
  else if build_but_block farmer_reported_soil
      (ensureEntries df excelSome (farmer_reported_soil.getD "") temperature season)
      ph_val oc_val month_name season season_months = "" then out_text
  else
    stripStr out_text ++ "\n\n"
      ++ build_but_block farmer_reported_soil
        (ensureEntries df excelSome (farmer_reported_soil.getD "") temperature season)
        ph_val oc_val month_name season season_months

/-! ### `gemini_service._fallback_response` -/

/-- The duck-typed `crops` argument of `generate_advice`/`_fallback_response`:
a `{"crops": [...]}` dict, a plain list, or anything else. -/
inductive CropsArg
  | dict (crops : List String)
  | list (l : List String)
  | other
deriving DecidableEq

def cropsArgList : CropsArg → List String
  | .dict c => c
  | .list l => l
  | .other => []

/-- Python `str(x)` on an optional string (`None` prints as `"None"`). -/
def fmtOptStr (o : Option String) : String :=
  match o with
  | none => "None"
  | some s => s

/-- Python `round` to an integer (banker's rounding). -/
def roundHalfEven (q : ℚ) : ℤ :=
  let n := ⌊q⌋
  let r := q - (n : ℚ)
  if r < 1 / 2 then n
  else if (1 / 2 : ℚ) < r then n + 1
  else if n % 2 = 0 then n else n + 1

/-- `f"{round(float(t), 1)}"`: one-decimal rendering of a temperature. -/
def fmtTemp1 (q : ℚ) : String :=
  let n := roundHalfEven (q * 10)
  let a := n.natAbs
  (if n < 0 then "-" else "") ++ toString (a / 10) ++ "." ++ toString (a % 10)

/-- The `Current temperature: …° C. Month: ….` line appended by both fallback
branches. -/
def tempMonthLine (temperature : Option ℚ) (month_name : Option String) : List String :=
  if temperature.isSome || optTruthy month_name then
    let t :=
      match temperature with
      | some q => "Current temperature: " ++ fmtTemp1 q ++ "°C."
      | none => ""
    let m := if optTruthy month_name then "Month: " ++ month_name.getD "" ++ "." else ""
    [stripStr (t ++ " " ++ m)]
  else []

/-- The `region_crops` accumulation loop of the unverified fallback branch. -/
def regionCropsLoop (df : List Row) (state : Option String) (temperature : Option ℚ)
    (season : Option String) : List String → List String → List String
  | acc, [] => acc
  | acc, s :: rest =>
    let info := query_crops df (fmtOptStr state) s temperature season
    let acc' := info.crops.foldl (fun a c => if c ∈ a then a else a ++ [c]) acc
    if 3 ≤ acc'.length then acc' else regionCropsLoop df state temperature season acc' rest

/-- `gemini_service._fallback_response`. -/
def fallback_response (df : List Row) (excelSome : Bool) (confirmed : Bool)
    (soil_type state : Option String) (season season_months : String) (crops : CropsArg)
    (temperature : Option ℚ) (month_name : Option String)
    (expected_soils : Option (List String)) (ph_val oc_val : Option ℚ) : String :=
  let top_candidates := cropsArgList crops
  let soil_label := display_soil_label soil_type
  let noteL :=
    match short_soil_note soil_label with
    | some n => [n]
    | none => []
  if confirmed then
    let p1 := "Based on our data, your reported " ++ soil_label ++ " is correct."
    let p2 :=
      if ¬ top_candidates.isEmpty then
        let sh := fmt_sow_harv_from_season_or_token none (some season_months) month_name
        if sh.1 ≠ "" && sh.2 ≠ "" then
          "For the " ++ season ++ " season on " ++ soil_label ++ ", top choices: "
            ++ joinSep ", " (top_candidates.take 2) ++ ". Sowing: " ++ sh.1
            ++ ". Harvest: " ++ sh.2 ++ "."
        else if sh.1 ≠ "" then
          "For the " ++ season ++ " season on " ++ soil_label ++ ", top choices: "
            ++ joinSep ", " (top_candidates.take 2) ++ ". Sowing: " ++ sh.1 ++ "."
        else
          "For the " ++ season ++ " season on " ++ soil_label ++ ", top choices: "
            ++ joinSep ", " (top_candidates.take 2) ++ "."
      else "No clear DB crop match found; choose crops suited to the season and water availability."
    let ferts := choose_fertilizers_for_soil_and_crop (some soil_label) ph_val oc_val none
    let pF := "Fertilizer: " ++ joinSep ", " (ferts.take 2) ++ ". Get a soil test for exact doses."
    let parts := [p1, p2] ++ noteL ++ [pF] ++ tempMonthLine temperature month_name
    clean_text (joinSep "\n\n" (parts.filter (· ≠ "")))
  else
    let expectedOk : Bool :=
      match expected_soils with
      | some l => !l.isEmpty
      | none => false
    let pOpen :=
      if expectedOk then
        "According to our data, " ++ soil_label ++ " is not common in " ++ fmtOptStr state
          ++ ". Common soils in " ++ fmtOptStr state ++ ": "
          ++ joinSep ", " (expected_soils.getD []) ++ "."
      else
        "According to our data, we could not find an exact match for " ++ soil_label
          ++ " in " ++ fmtOptStr state ++ "."
    let region_crops :=
      if expectedOk && excelSome then
        regionCropsLoop df state temperature (some season) [] (expected_soils.getD [])
      else []
    let pCh :=
      if ¬ region_crops.isEmpty then
        let sh := fmt_sow_harv_from_season_or_token none (some season_months) month_name
        if sh.1 ≠ "" && sh.2 ≠ "" then
          "For these soils, top choices: " ++ joinSep ", " (region_crops.take 3)
            ++ ". Sowing: " ++ sh.1 ++ ". Harvest: " ++ sh.2 ++ "."
        else if sh.1 ≠ "" then
          "For these soils, top choices: " ++ joinSep ", " (region_crops.take 3)
            ++ ". Sowing: " ++ sh.1 ++ "."
        else "For these soils, top choices: " ++ joinSep ", " (region_crops.take 3) ++ "."
      else if ¬ top_candidates.isEmpty then
        "Top choices: " ++ joinSep ", " (top_candidates.take 2) ++ "."
      else if season ≠ "" && pyLowerStr season == "kharif" then
        "Top choices: Rice (Paddy), Maize. Sowing: June–July. Harvest: Sept–Nov."
      else "Top choices: choose crops suited to " ++ season ++ " and local water availability."
    let pF :=
      if ph_val.isNone && oc_val.isNone then
        "Fertilizer: Compost, Cow dung manure. Get a soil test for exact doses."
      else "Fertilizer: N-P-K (balanced), Compost. Get a soil test for exact doses."
    let parts := [pOpen, pCh] ++ noteL ++ [pF] ++ tempMonthLine temperature month_name
    clean_text (joinSep "\n\n" (parts.filter (· ≠ "")))

/-! ### `gemini_service.generate_advice` -/

/-- The optional `weather` dict (only `temperature` is read). -/
structure WeatherInfo where
  temperature : Option ℚ
deriving DecidableEq

def kwFertAny (s : String) : Bool :=
  ["fertil", "compost", "n-p-k", "cow dung", "dap", "urea"].any
    (fun k => containsSubList k.toList s.toList)

/-- Crop-from-query injection into the candidate crops (`generate_advice`,
first block). -/
def ga_cropsAfterInjection (crops : CropsArg) (crop_from_query : Option String) : CropsArg :=
  match crop_from_query with
  | none => crops
  | some c =>
    match crops with
    | .dict l => .dict (if c ∈ l then l else c :: l)
    | .list l => .list (if c ∈ l then c :: l.filter (· ≠ c) else c :: l)
    | .other => .dict [c]

/-- Month override from the query (`generate_advice`, second block): returns
the effective (month_name, season, season_months). -/
def ga_monthSeason (query month_name : Option String) (season season_months : String) :
    Option String × String × String :=
  match (if optTruthy query then extract_month_from_text query else none) with
  | none => (month_name, season, season_months)
  | some m =>
    match month_to_season (some m) with
    | some s =>
      (some m, s,
        ((SEASON_WINDOWS s).map Prod.fst).getD "" ++ " / "
          ++ ((SEASON_WINDOWS s).map Prod.snd).getD "")
    | none => (some m, season, season_months)

/-- `confirmed = bool(soil_info.get("verified", False))` default. -/
def ga_effConfirmed (soil_info : Option SoilAssessment) (confirmed : Option Bool) : Bool :=
  match confirmed with
  | some b => b
  | none =>
    match soil_info with
    | some d => d.verified
    | none => false

def ga_soilType (soil_info : Option SoilAssessment) (farmer_reported_soil : Option String) :
    Option String :=
  match soil_info with
  | some d => d.soil_type
  | none => if optTruthy farmer_reported_soil then farmer_reported_soil else some "Unknown"

def ga_phVal (soil_info : Option SoilAssessment) : Option ℚ :=
  match soil_info with
  | some d => d.details.ph
  | none => none

def ga_ocVal (soil_info : Option SoilAssessment) : Option ℚ :=
  match soil_info with
  | some d => d.details.organic_carbon
  | none => none

def ga_expected (soil_info : Option SoilAssessment) : Option (List String) :=
  match soil_info with
  | some d => if d.expected_soils.isEmpty then none else some d.expected_soils
  | none => none

/-- The text `generate_advice` feeds to `_ensure_but_block_present`: the
cleaned generator output with the fertilizer-mention guarantee (when the
generator produced non-empty text), otherwise the deterministic fallback.
`gemini` is the generative-text collaborator's output (`none` models absence,
error, or an unconfigured backend). -/
def ga_preText (df : List Row) (excelSome : Bool) (soil_info : Option SoilAssessment)
    (weather : Option WeatherInfo) (season season_months : String) (crops : CropsArg)
    (query state : Option String) (farmer_reported_soil : Option String)
    (confirmed : Option Bool) (month_name : Option String) (gemini : Option String) : String :=
  let crops1 := ga_cropsAfterInjection crops (extract_crop_from_query query)
  let msm := ga_monthSeason query month_name season season_months
  let temp_val :=
    match weather with
    | some w => w.temperature
    | none => none
  let fallbackText :=
    fallback_response df excelSome (ga_effConfirmed soil_info confirmed)
      (ga_soilType soil_info farmer_reported_soil) state msm.2.1 msm.2.2 crops1 temp_val
      msm.1 (ga_expected soil_info) (ga_phVal soil_info) (ga_ocVal soil_info)
  match gemini with
  | some t =>
    if t ≠ "" then
      let out := clean_text t
      if kwFertAny (pyLowerStr out) then out
      else stripStr out ++ "\n\nFertilizer: Compost. Get a soil test for exact doses."
    else fallbackText
  | none => fallbackText

/-- `gemini_service.generate_advice`.  In both source branches the returned
value is `_ensure_but_block_present` applied to the pre-block text with the
same remaining arguments, which the factoring through `ga_preText` mirrors
exactly.  (`verification_context` only feeds the generator prompt, which the
`gemini` oracle already abstracts.) -/
def generate_advice (df : List Row) (excelSome : Bool) (soil_info : Option SoilAssessment)
    (weather : Option WeatherInfo) (season season_months : String) (crops : CropsArg)
    (query state : Option String) (farmer_reported_soil : Option String)
    (confirmed : Option Bool) (month_name : Option String) (gemini : Option String) : String :=
  let msm := ga_monthSeason query month_name season season_months
  let temp_val :=
    match weather with
    | some w => w.temperature
    | none => none
  ensure_but_block_present df excelSome
    (ga_preText df excelSome soil_info weather season season_months crops query state
      farmer_reported_soil confirmed month_name gemini)
    (ga_effConfirmed soil_info confirmed) farmer_reported_soil (ga_phVal soil_info)
    (ga_ocVal soil_info) temp_val msm.1 (some msm.2.1) (some msm.2.2)

/-! ## Helper lemmas -/

theorem containsSubList_of_isPrefixOf {n l : List Char} (h : n.isPrefixOf l = true) :
    containsSubList n l = true := by
  cases l with
  | nil =>
    cases n with
    | nil => rfl
    | cons c cs => simp [List.isPrefixOf] at h
  | cons c rest => simp [containsSubList, h]

theorem containsSubList_append_right {n b : List Char} (a : List Char)
    (h : containsSubList n b = true) : containsSubList n (a ++ b) = true := by
  induction a with
  | nil => simpa using h
  | cons c a' ih => simp [containsSubList, ih]

theorem string_toList_append (a b : String) : (a ++ b).toList = a.toList ++ b.toList := rfl

/-! ## Claim C1 — season of a December date

The spec (and `gemini_service.month_to_season`, and the Rabi window printed by
`date_service.get_season_months`) places December in Rabi, but
`get_season_from_date`'s branch `month == 11 or month <= 3` lets month 12 fall
through to `Zaid`. -/

/-- C1: the code maps `"2024-12-01"` (month 12) to `"Zaid"`, not `"Rabi"` as
the claim (and the repo's own `month_to_season`) requires. -/
theorem C1_december_maps_to_zaid :
    get_season_from_date "2024-12-01" = some "Zaid"
      ∧ (get_season_from_date "2024-12-01" == some "Rabi") = false
      ∧ month_to_season (some "December") = some "Rabi"
      ∧ seasonFromMonth 12 = "Zaid" := by
  refine ⟨rfl, ?_, rfl, rfl⟩
  decide

/-! ## Claim C3 — synonym folding of "Black Cotton Soil"

The stopword pass removes the word "soil" before the synonym table is
consulted, so the `"black cotton soil" → "black"` entry never fires on that
phrase: the result is `"black cotton"`, not `"black"`. -/

/-- C3: `_normalize_soil_name "Black Cotton Soil"` is `"black cotton"` (the
dead synonym entry documents the intended `"black"`), while `"Regur"` does
fold to `"black"`. -/
theorem C3_black_cotton_normalization :
    norm "Black Cotton Soil" = "black cotton"
      ∧ norm "Regur" = "black"
      ∧ (norm "Black Cotton Soil" == "black") = false := by
  refine ⟨rfl, rfl, ?_⟩
  decide

/-! ## Claim C4 — `query_crops` soil predicate vs the three-tier policy

`check_soil_exists` uses exact/substring/token-overlap matching, but
`query_crops` filters rows by exact normalized equality only. -/

/-- C4 counterexample: for the dataset with one `punjab`/`Sandy Loam` row and
query soil `"Sandy"`, the three-tier policy matches
(`check_soil_exists = true`) yet `query_crops` selects no row. -/
theorem C4_counterexample :
    check_soil_exists dfSandyLoam "punjab" "Sandy" = true
      ∧ (query_crops dfSandyLoam "punjab" "Sandy" none none).no_match = true
      ∧ (query_crops dfSandyLoam "punjab" "Sandy" none none).crops = []
      ∧ (norm "Sandy" == rowSoilNorm ⟨"punjab", some "Sandy Loam", some "Kharif",
          none, some "Rice", none, none⟩) = false := by
  refine ⟨rfl, rfl, rfl, ?_⟩
  decide

/-- C4 amended: `query_crops` (with a non-empty soil) selects a row iff the
row's state matches case-insensitively, the row's soil label and the given
soil have *equal* `_normalize_soil_name` forms (not the three-tier
`check_soil_exists` policy), and the season predicate holds. -/
theorem C4_amended (df : List Row) (state soil_type : String) (season : Option String)
    (r : Row) (hsoil : soil_type ≠ "") :
    r ∈ filterRSS df state soil_type season ↔
      r ∈ df ∧ pyLowerStr r.state = pyLowerStr state
        ∧ rowSoilNorm r = norm soil_type ∧ seasonOk r season = true := by
  simp [filterRSS, List.mem_filter, hsoil, and_assoc]

/-- C4 amended, witness: with soil `"sandy loam"`, whose normal form equals
that of the row label `"Sandy Loam"`, the row is selected. -/
theorem C4_amended_witness :
    (⟨"punjab", some "Sandy Loam", some "Kharif", none, some "Rice", none, none⟩ : Row)
      ∈ filterRSS dfSandyLoam "punjab" "sandy loam" none :=
  (C4_amended dfSandyLoam "punjab" "sandy loam" none
    ⟨"punjab", some "Sandy Loam", some "Kharif", none, some "Rice", none, none⟩
    (by decide)).mpr ⟨by decide, by decide, by decide, by decide⟩

/-! ## Claim C6 — temperature filtering only narrows, and never to zero -/

/-- C6: the temperature step of `query_crops` yields a sublist of the
region+soil+season filtered set, and when no row passes the temperature test
the un-narrowed filtered set is returned unchanged. -/
theorem C6_temperature_narrowing (df : List Row) (state soil_type : String)
    (season : Option String) (t : ℚ) :
    List.Sublist (selectedRows df state soil_type (some t) season)
        (filterRSS df state soil_type season)
      ∧ ((filterRSS df state soil_type season).filter (rowTempMatch t) = [] →
          selectedRows df state soil_type (some t) season
            = filterRSS df state soil_type season) := by
  constructor
  · unfold selectedRows
    simp only
    split
    · exact List.Sublist.refl _
    · split
      · exact List.Sublist.refl _
      · exact List.filter_sublist _
  · intro h
    unfold selectedRows
    simp only [h]
    split
    · rfl
    · simp

/-- C6 witness: on the concrete dataset (whose row has no parseable
temperature range) the filter at 25° would be empty, and the result equals the
un-narrowed filtered set, which is non-empty. -/
theorem C6_temperature_narrowing_witness :
    selectedRows dfSandyLoam "punjab" "sandy loam" (some 25) none
        = filterRSS dfSandyLoam "punjab" "sandy loam" none
      ∧ (filterRSS dfSandyLoam "punjab" "sandy loam" none).isEmpty = false :=
  ⟨(C6_temperature_narrowing dfSandyLoam "punjab" "sandy loam" none 25).2 (by decide),
   by decide⟩

/-! ## Claim C7 — `no_match` iff empty crops

`no_match` reflects emptiness of the filtered *row* set; a matching row with
no option cells yields `crops = []` together with `no_match = false`. -/

/-- C7 counterexample: one matching row whose three option cells are all
missing gives an empty crop list with `no_match = false`. -/
theorem C7_counterexample :
    (query_crops dfNoOptions "punjab" "black" none none).no_match = false
      ∧ (query_crops dfNoOptions "punjab" "black" none none).crops = [] :=
  ⟨rfl, rfl⟩

/-- C7 amended: `no_match = true` iff the selected *row* set is empty (so
`no_match = true` still forces an empty crop list, but not conversely). -/
theorem C7_amended (df : List Row) (state soil_type : String) (temperature : Option ℚ)
    (season : Option String) :
    (query_crops df state soil_type temperature season).no_match
        = (selectedRows df state soil_type temperature season).isEmpty
      ∧ ((query_crops df state soil_type temperature season).no_match = true →
          (query_crops df state soil_type temperature season).crops = []) := by
  unfold query_crops
  simp only
  split
  · exact ⟨by simp_all, fun _ => rfl⟩
  · refine ⟨by simp_all, fun h => ?_⟩
    simp at h

/-- C7 amended, witness: a call whose row set is empty has `no_match = true`
and an empty crop list. -/
theorem C7_amended_witness :
    (query_crops dfSandyLoam "punjab" "Sandy" none none).crops = [] :=
  (C7_amended dfSandyLoam "punjab" "Sandy" none none).2 (by decide)

/-! ## Claim C10 — the limit cap of `query_crops_for_soil` counts raw
option-cell occurrences -/

theorem dedupAux_spec {α : Type} [DecidableEq α] :
    ∀ (l : List α) (seen : List α),
      (dedupAux seen l).Nodup ∧ ∀ x ∈ dedupAux seen l, x ∉ seen := by
  intro l
  induction l with
  | nil => intro seen; simp [dedupAux]
  | cons x rest ih =>
    intro seen
    by_cases hx : x ∈ seen
    · simpa [dedupAux, hx] using ih seen
    · constructor
      · simp only [dedupAux, if_neg hx, List.nodup_cons]
        refine ⟨fun hmem => ?_, (ih (x :: seen)).1⟩
        exact (ih (x :: seen)).2 x hmem (by simp)
      · intro y hy
        simp only [dedupAux, if_neg hx, List.mem_cons] at hy
        rcases hy with rfl | hy
        · exact hx
        · intro hseen
          exact (ih (x :: seen)).2 y hy (by simp [hseen])

theorem dedupFirst_nodup {α : Type} [DecidableEq α] (l : List α) : (dedupFirst l).Nodup :=
  (dedupAux_spec l []).1

/-- C10: for every call, `query_crops_for_soil` returns at most `limit` crops
and no duplicates; yet on the concrete dataset whose matching rows carry the
three distinct crops Wheat, Rice, Maize (with a duplicate Wheat occurrence),
`limit = 3` returns only two crops, because the cap is consumed by raw
option-cell occurrences before de-duplication. -/
theorem C10_limit_counts_occurrences :
    (∀ (df : List Row) (soil_type : String) (temperature : Option ℚ)
        (season : Option String) (limit : Nat),
        (query_crops_for_soil df soil_type temperature season limit).length ≤ limit
          ∧ (query_crops_for_soil df soil_type temperature season limit).Nodup)
      ∧ (dedupFirst (collectOptions (soilFiltered dfDupOptions "black" none))).length = 3
      ∧ query_crops_for_soil dfDupOptions "black" none none 3 = ["Wheat", "Rice"] := by
  refine ⟨fun df soil_type temperature season limit => ?_, by rfl, by rfl⟩
  unfold query_crops_for_soil
  split
  · simp
  · simp only
    split
    · simp
    · constructor
      · rw [List.length_take]
        exact Nat.min_le_left _ _
      · exact (dedupFirst_nodup _).sublist (List.take_sublist _ _)

/-! ## Claim C8 — `verified = true` only for the two farmer-corroborated
sources -/

theorem farmerStep_inr_unverified {df : List Row} {state provided : Option String} {m : Bool}
    {r : SoilAssessment} (h : farmerStep df state provided m = Sum.inr r) :
    r.verified = false := by
  unfold farmerStep at h
  dsimp only at h
  repeat' split at h
  all_goals first
    | (simp only [Sum.inr.injEq] at h; subst h; rfl)
    | simp at h

theorem farmerStep_inl_source {df : List Row} {state provided : Option String} {m : Bool}
    {final : SoilAssessment} (h : farmerStep df state provided m = Sum.inl final) :
    final.source = some "farmer_input_verified" := by
  unfold farmerStep at h
  dsimp only at h
  repeat' split at h
  all_goals first
    | (simp only [Sum.inl.injEq] at h; subst h; rfl)
    | simp at h

theorem imageStep_inr_verified {df : List Row} {state provided : Option String}
    {sup cok : Bool} {g : Option String} {r r' : SoilAssessment}
    (h : imageStep df state provided sup cok g r = Sum.inr r') :
    r'.verified = r.verified := by
  unfold imageStep at h
  dsimp only at h
  repeat' split at h
  all_goals first
    | (simp only [Sum.inr.injEq] at h; subst h; rfl)
    | simp at h

theorem imageStep_inl_source {df : List Row} {state provided : Option String}
    {sup cok : Bool} {g : Option String} {r final : SoilAssessment}
    (h : imageStep df state provided sup cok g r = Sum.inl final) :
    final.source = some "image+farmer_verified" := by
  unfold imageStep at h
  dsimp only at h
  repeat' split at h
  all_goals first
    | (simp only [Sum.inl.injEq] at h; subst h; rfl)
    | simp at h

theorem compoStep_verified {df : List Row} {state pincode : Option String}
    {geo : Option (ℚ × ℚ)} {sg : Option SoilGridsProps} {r : SoilAssessment}
    (h : (compoStep df state pincode geo sg r).verified = true) : r.verified = true := by
  unfold compoStep at h
  dsimp only at h
  repeat' split at h
  all_goals simp_all

theorem unknownStep_verified {df : List Row} {state : Option String} {r : SoilAssessment}
    (h : (unknownFallbackStep df state r).verified = true) : r.verified = true := by
  unfold unknownFallbackStep at h
  split at h
  · simp_all
  · exact h

theorem resolveCore_source_of_verified (df : List Row) (pincode state provided : Option String)
    (m sup cok : Bool) (g : Option String) (geo : Option (ℚ × ℚ)) (sg : Option SoilGridsProps)
    (h : (resolveCore df pincode state provided m sup cok g geo sg).verified = true) :
    (resolveCore df pincode state provided m sup cok g geo sg).source
        = some "farmer_input_verified"
      ∨ (resolveCore df pincode state provided m sup cok g geo sg).source
        = some "image+farmer_verified" := by
  unfold resolveCore at h ⊢
  rcases hfs : farmerStep df state provided m with final | r1
  · simp only [hfs]
    left
    exact farmerStep_inl_source hfs
  · simp only [hfs] at h ⊢
    rcases his : imageStep df state provided sup cok g r1 with final | r2
    · simp only [his]
      right
      exact imageStep_inl_source his
    · simp only [his] at h ⊢
      exfalso
      have h3 := compoStep_verified (unknownStep_verified h)
      rw [imageStep_inr_verified his, farmerStep_inr_unverified hfs] at h3
      exact Bool.noConfusion h3

/-- C8: for every input, including every collaborator failure mode, the
assessment returned by `get_soil_type_async` has `verified = true` only when
its `source` is `farmer_input_verified` or `image+farmer_verified`; every
other source (`image`, `soilgrids`, `fallback`, `error`,
`farmer_input_unverified`) carries `verified = false`. -/
theorem C8_verified_only_when_farmer_corroborated
    (df : List Row) (pincode state city provided_soil_type : Option String)
    (imageSupplied contentsOk : Bool) (imgGuess : Option String)
    (geocode : Option (ℚ × ℚ)) (sg : Option SoilGridsProps) (pipelineError : Bool)
    (h : (get_soil_type_async df pincode state city provided_soil_type imageSupplied
        contentsOk imgGuess geocode sg pipelineError).verified = true) :
    (get_soil_type_async df pincode state city provided_soil_type imageSupplied
        contentsOk imgGuess geocode sg pipelineError).source = some "farmer_input_verified"
      ∨ (get_soil_type_async df pincode state city provided_soil_type imageSupplied
          contentsOk imgGuess geocode sg pipelineError).source
        = some "image+farmer_verified" := by
  unfold get_soil_type_async at h ⊢
  by_cases hp : pipelineError
  · rw [if_pos hp] at h
    simp [errorAssessment] at h
  · rw [if_neg hp] at h ⊢
    exact resolveCore_source_of_verified _ _ _ _ _ _ _ _ _ _ h

/-- C8 witness: a request whose declared soil is verified against the dataset
reaches `verified = true`, and the theorem then pins its source. -/
theorem C8_verified_only_when_farmer_corroborated_witness :
    (get_soil_type_async dfPunjabBlack none (some "Punjab") none (some "black")
        false false none none none false).verified = true
      ∧ ((get_soil_type_async dfPunjabBlack none (some "Punjab") none (some "black")
            false false none none none false).source = some "farmer_input_verified"
          ∨ (get_soil_type_async dfPunjabBlack none (some "Punjab") none (some "black")
              false false none none none false).source = some "image+farmer_verified") :=
  ⟨by rfl,
   C8_verified_only_when_farmer_corroborated dfPunjabBlack none (some "Punjab") none
     (some "black") false false none none none false (by rfl)⟩

/-! ## Claim C5 — image/farmer agreement test

The early-return branch compares `strip().lower()` forms, not
`_normalize_soil_name` forms: `"Regur"` and `"Black"` are normalization-equal
(both `"black"`) yet do not trigger the `image+farmer_verified` termination. -/

/-- C5 counterexample: declared `"Regur"` with image label `"Black"` are equal
under `_normalize_soil_name`, but the resolver ends with `source = "image"`
and `verified = false` instead of the claimed terminal
`image+farmer_verified`. -/
theorem C5_counterexample :
    norm "Regur" = norm "Black"
      ∧ (get_soil_type_async [] none none none (some "Regur") true true (some "Black")
          none none false).source = some "image"
      ∧ (get_soil_type_async [] none none none (some "Regur") true true (some "Black")
          none none false).verified = false :=
  ⟨rfl, rfl, rfl⟩

theorem resolveCore_image_agreement (df : List Row) (pincode state : Option String)
    (pv g : String) (geo : Option (ℚ × ℚ)) (sg : Option SoilGridsProps)
    (hnv : optTruthy state = true → check_soil_exists df (state.getD "") pv = false)
    (hg : g ≠ "")
    (heq : pyLowerStr (stripStr g) = pyLowerStr (stripStr pv)) :
    resolveCore df pincode state (some pv) true true true (some g) geo sg
      = { soil_type := some pv, source := some "image+farmer_verified", details := {},
          verified := true,
          expected_soils :=
            if optTruthy state then get_soils_for_state df (state.getD "") else [] } := by
  unfold resolveCore farmerStep imageStep
  dsimp only
  by_cases hs : optTruthy state = true
  · simp [hs, hnv hs, hg, heq]
  · simp only [Bool.not_eq_true] at hs
    simp [hs, hg, heq]

/-- C5 amended: when the declared soil is meaningful, the dataset verification
has not already terminated the resolver, an image is supplied and read, and
the classifier label equals the declared soil after `strip().lower()` (rather
than under full normalization), then the resolver terminates with
`source = "image+farmer_verified"`, `verified = true`, and the geocoded
composition step neither runs nor alters the result (the outcome is
independent of the `geocode`/SoilGrids oracles). -/
theorem C5_amended (df : List Row) (pincode state city : Option String) (p g : String)
    (geocode : Option (ℚ × ℚ)) (sg : Option SoilGridsProps)
    (hp : stripStr p ≠ "")
    (hm : unknown_tokens.contains (pyLowerStr (stripStr (stripStr p))) = false)
    (hnv : optTruthy state = true → check_soil_exists df (state.getD "") (stripStr p) = false)
    (hg : g ≠ "")
    (heq : pyLowerStr (stripStr g) = pyLowerStr (stripStr (stripStr p))) :
    (get_soil_type_async df pincode state city (some p) true true (some g) geocode sg
        false).source = some "image+farmer_verified"
      ∧ (get_soil_type_async df pincode state city (some p) true true (some g) geocode sg
          false).verified = true
      ∧ (get_soil_type_async df pincode state city (some p) true true (some g) geocode sg
          false).soil_type = some (stripStr p)
      ∧ get_soil_type_async df pincode state city (some p) true true (some g) geocode sg false
        = get_soil_type_async df pincode state city (some p) true true (some g) none none
            false := by
  have key := resolveCore_image_agreement df pincode state (stripStr p) g geocode sg hnv hg heq
  have key0 := resolveCore_image_agreement df pincode state (stripStr p) g none none hnv hg heq
  unfold get_soil_type_async
  simp only [if_neg (show ¬ ((false : Bool) = true) by decide), if_neg hp]
  rw [hm]
  simp only [Bool.not_false]
  rw [key, key0]
  exact ⟨rfl, rfl, rfl, rfl⟩

/-- C5 amended, witness: declared `"Regur"`, image label `"regur"`, no region,
and live composition oracles; the resolver terminates on the image+farmer
branch and the composition oracles do not change the result. -/
theorem C5_amended_witness :
    (get_soil_type_async [] none none none (some "Regur") true true (some "regur")
        (some (1, 2)) (some ⟨[], [], [], [], []⟩) false).source = some "image+farmer_verified"
      ∧ (get_soil_type_async [] none none none (some "Regur") true true (some "regur")
          (some (1, 2)) (some ⟨[], [], [], [], []⟩) false).verified = true
      ∧ get_soil_type_async [] none none none (some "Regur") true true (some "regur")
          (some (1, 2)) (some ⟨[], [], [], [], []⟩) false
        = get_soil_type_async [] none none none (some "Regur") true true (some "regur")
            none none false :=
  have T := C5_amended [] none none none "Regur" "regur" (some (1, 2))
    (some ⟨[], [], [], [], []⟩) (by decide) (by decide)
    (fun h => absurd h (by decide)) (by decide) (by decide)
  ⟨T.1, T.2.1, T.2.2.2⟩

/-! ## Claim C2 — idempotence of `_normalize_soil_name`

The synonym loop re-fires on its own output (`"loam" ↦ "loamy" ↦ "loamyy"`),
and a normal form may still contain a stopword (`"soil_type" ↦ "soil type"`),
so the function is not idempotent.  It is idempotent on every input whose
normal form is canonical (lowercase/digit/hyphen/single-space, trimmed) and
free of stopword words and synonym keys. -/

/-- The characters a `_normalize_soil_name` output can consist of. -/
def canonicalCh (c : Char) : Bool :=
  isLowerAlpha c || isDigitCh c || (c == ' ') || (c == '-')

/-- A string is canonical when all characters are lowercase letters, digits,
hyphens or spaces, with no double space and no leading/trailing space. -/
def canonicalSoilStr (s : String) : Bool :=
  s.toList.all canonicalCh && !(containsSubList [' ', ' '] s.toList)
    && !(s.toList.head? == some ' ') && !(s.toList.reverse.head? == some ' ')

/-- Companion of `stopSubAux`: does some maximal word run equal a stopword? -/
def hasStopAux : List Char → List Char → Bool
  | run, [] => isStopRun run
  | run, c :: rest =>
    if wordCh c then hasStopAux (c :: run) rest else (isStopRun run || hasStopAux [] rest)

def hasStopwordRun (l : List Char) : Bool := hasStopAux [] l

/-- Does some `_SYNONYMS` key occur as a substring? -/
def hasSynonymKey (l : List Char) : Bool :=
  SYNONYMS.any (fun kv => containsSubList kv.1.toList l)

theorem ws_of_canonical {c : Char} (h1 : canonicalCh c = true) (h2 : isWS c = true) :
    c = ' ' := by
  simp only [isWS, Bool.or_eq_true, beq_iff_eq] at h2
  rcases h2 with ((((h2 | h2) | h2) | h2) | h2) | h2
  · exact h2
  all_goals (subst h2; exact absurd h1 (by decide))

theorem lower_id_of_canonical {c : Char} (h1 : canonicalCh c = true) : pyLowerCh c = c := by
  unfold pyLowerCh
  split
  · exfalso
    rename_i h
    simp only [canonicalCh, Bool.or_eq_true, beq_iff_eq] at h1
    simp only [isUpperAlpha, Bool.and_eq_true, decide_eq_true_eq] at h
    rcases h1 with ((h1 | h1) | h1) | h1
    · simp only [isLowerAlpha, Bool.and_eq_true, decide_eq_true_eq] at h1; omega
    · simp only [isDigitCh, Bool.and_eq_true, decide_eq_true_eq] at h1; omega
    · subst h1; exact absurd h (by decide)
    · subst h1; exact absurd h (by decide)
  · rfl

theorem map_lower_id : ∀ l : List Char, (∀ c ∈ l, canonicalCh c = true) →
    l.map pyLowerCh = l
  | [], _ => rfl
  | c :: rest, h => by
    simp only [List.map_cons]
    rw [lower_id_of_canonical (h c (by simp)),
      map_lower_id rest (fun x hx => h x (by simp [hx]))]

theorem punctKeep_of_canonical {c : Char} (h1 : canonicalCh c = true) :
    (isLowerAlpha c || isDigitCh c || isWS c || (c == '-')) = true := by
  simp only [canonicalCh, Bool.or_eq_true, beq_iff_eq] at h1
  rcases h1 with ((h1 | h1) | h1) | h1
  · simp [h1]
  · simp [h1]
  · subst h1; decide
  · subst h1; decide

theorem punctSub_id : ∀ l : List Char, (∀ c ∈ l, canonicalCh c = true) → punctSub l = l
  | [], _ => rfl
  | c :: rest, h => by
    simp only [punctSub, List.map_cons]
    rw [if_pos (punctKeep_of_canonical (h c (by simp)))]
    have := punctSub_id rest (fun x hx => h x (by simp [hx]))
    simp only [punctSub] at this
    rw [this]

theorem containsSubList_single_false {ch : Char} (hch : canonicalCh ch = false) :
    ∀ l : List Char, (∀ c ∈ l, canonicalCh c = true) → containsSubList [ch] l = false
  | [], _ => rfl
  | c :: rest, h => by
    have hne : ch ≠ c := by
      intro he
      rw [he, h c (by simp)] at hch
      exact Bool.noConfusion hch
    simp only [containsSubList, Bool.or_eq_false_iff]
    constructor
    · simp [List.isPrefixOf, hne]
    · exact containsSubList_single_false hch rest (fun x hx => h x (by simp [hx]))

theorem replaceAux_id {k v : List Char} : ∀ l, containsSubList k l = false →
    replaceAux k v 0 l = l
  | [], _ => rfl
  | c :: rest, h => by
    simp only [containsSubList, Bool.or_eq_false_iff] at h
    simp only [replaceAux]
    rw [if_neg (by simp [h.1]), replaceAux_id rest h.2]

theorem replaceSub_id {k v l : List Char} (h : containsSubList k l = false) :
    replaceSubList k v l = l := by
  unfold replaceSubList
  split
  · rfl
  · exact replaceAux_id l h

theorem stopSubAux_id : ∀ (l run : List Char), hasStopAux run l = false →
    stopSubAux run l = run.reverse ++ l
  | [], run, h => by
    simp only [hasStopAux] at h
    simp [stopSubAux, emitRun, h]
  | c :: rest, run, h => by
    simp only [hasStopAux] at h
    simp only [stopSubAux]
    by_cases hw : wordCh c = true
    · rw [if_pos hw] at h ⊢
      rw [stopSubAux_id rest (c :: run) h]
      simp
    · rw [if_neg hw] at h ⊢
      simp only [Bool.or_eq_false_iff] at h
      rw [stopSubAux_id rest [] h.2]
      simp [emitRun, h.1]

theorem stopSub_id {l : List Char} (h : hasStopwordRun l = false) : stopSub l = l := by
  unfold stopSub
  rw [stopSubAux_id l [] h]
  rfl

theorem dropWhile_id_head {l : List Char} (h : ∀ c ∈ l, canonicalCh c = true)
    (hh : ¬ l.head? = some ' ') : l.dropWhile isWS = l := by
  cases l with
  | nil => rfl
  | cons c rest =>
    rw [List.dropWhile_cons, if_neg]
    intro habs
    have hc := ws_of_canonical (h c (by simp)) habs
    exact hh (by rw [hc]; rfl)

theorem stripWS_id {l : List Char} (h : ∀ c ∈ l, canonicalCh c = true)
    (h1 : ¬ l.head? = some ' ') (h2 : ¬ l.reverse.head? = some ' ') : stripWSList l = l := by
  unfold stripWSList
  rw [dropWhile_id_head h h1,
    dropWhile_id_head (fun c hc => h c (by simpa using hc)) h2]
  exact List.reverse_reverse l

theorem containsSub_cons_false {n : List Char} {c : Char} {l : List Char}
    (h : containsSubList n (c :: l) = false) :
    n.isPrefixOf (c :: l) = false ∧ containsSubList n l = false := by
  have h0 : (n.isPrefixOf (c :: l) || containsSubList n l) = false := h
  simpa [Bool.or_eq_false_iff] using h0

theorem collapseWS_id : ∀ l : List Char, (∀ c ∈ l, canonicalCh c = true) →
    containsSubList [' ', ' '] l = false → collapseWS l = l
  | [], _, _ => rfl
  | [c], h, _ => by
    simp only [collapseWS]
    by_cases hws : isWS c = true
    · rw [if_pos hws, ws_of_canonical (h c (by simp)) hws]
    · rw [if_neg hws]
  | c :: d :: rest, h, hd => by
    have hd' := containsSub_cons_false hd
    have hrec := collapseWS_id (d :: rest)
      (fun x hx => h x (by simp [List.mem_cons] at hx ⊢; tauto)) hd'.2
    simp only [collapseWS]
    by_cases hws : isWS c = true
    · have hc := ws_of_canonical (h c (by simp)) hws
      by_cases hwd : isWS d = true
      · exfalso
        have hdd := ws_of_canonical (h d (by simp)) hwd
        have hpre := hd'.1
        rw [hc, hdd] at hpre
        simp [List.isPrefixOf] at hpre
      · rw [if_pos hws, if_neg hwd, hrec, hc]
    · rw [if_neg hws, hrec]

theorem collapseStrip_id {l : List Char} (h : ∀ c ∈ l, canonicalCh c = true)
    (hd : containsSubList [' ', ' '] l = false)
    (h1 : ¬ l.head? = some ' ') (h2 : ¬ l.reverse.head? = some ' ') : collapseStrip l = l := by
  unfold collapseStrip
  rw [collapseWS_id l h hd]
  exact stripWS_id h h1 h2

theorem foldl_synStep_id : ∀ (keys : List (String × String)) (l : List Char),
    (∀ kv ∈ keys, containsSubList kv.1.toList l = false) →
    List.foldl
      (fun s kv =>
        if containsSubList kv.1.toList s then replaceSubList kv.1.toList kv.2.toList s else s)
      l keys = l
  | [], _, _ => rfl
  | kv :: keys, l, h => by
    simp only [List.foldl_cons]
    have h0 := h kv (by simp)
    rw [if_neg (by rw [h0]; simp)]
    exact foldl_synStep_id keys l (fun kv' hkv' => h kv' (by simp [hkv']))

theorem synLoop_id {l : List Char} (h : hasSynonymKey l = false) : synLoop l = l := by
  unfold synLoop
  apply foldl_synStep_id
  intro kv hkv
  simp only [hasSynonymKey, List.any_eq_false] at h
  simpa using h kv hkv

/-- C2 counterexample: `_normalize_soil_name` is not idempotent —
`norm "loam" = "loamy"` but `norm "loamy" = "loamyy"` (the `"loam" → "loamy"`
synonym entry re-fires on its own output). -/
theorem C2_counterexample :
    (norm (norm "loam") == norm "loam") = false
      ∧ norm "loam" = "loamy"
      ∧ norm (norm "loam") = "loamyy" := by
  refine ⟨?_, rfl, rfl⟩
  decide

/-- C2 amended: `_normalize_soil_name` is idempotent on every input whose
normal form is canonical (only lowercase letters, digits, hyphens and single
separating spaces, trimmed), contains no stopword (`soil`/`type`/`soils`) as a
whole word, and contains no `_SYNONYMS` key as a substring.  It is not
idempotent in general (see the counterexample). -/
theorem C2_amended (s : String)
    (hcanon : canonicalSoilStr (norm s) = true)
    (hstop : hasStopwordRun (norm s).toList = false)
    (hsyn : hasSynonymKey (norm s).toList = false) :
    norm (norm s) = norm s := by
  generalize hn : norm s = n at hcanon hstop hsyn
  by_cases hne : n = ""
  · subst hne; rfl
  · show normalize_soil_name (some n) = n
    simp only [normalize_soil_name, if_neg hne]
    simp only [canonicalSoilStr, Bool.and_eq_true, Bool.not_eq_true',
      beq_eq_false_iff_ne, ne_eq] at hcanon
    obtain ⟨⟨⟨hall, hdbl⟩, hhead⟩, hlast⟩ := hcanon
    have hmem : ∀ c ∈ n.toList, canonicalCh c = true := by
      intro c hc
      exact List.all_eq_true.mp hall c hc
    have hlist : normalizeList n.toList = n.toList := by
      unfold normalizeList
      rw [stripWS_id hmem hhead hlast, map_lower_id _ hmem, stopSub_id hstop,
        punctSub_id _ hmem,
        replaceSub_id (containsSubList_single_false (by decide) _ hmem),
        replaceSub_id (containsSubList_single_false (by decide) _ hmem),
        replaceSub_id (containsSubList_single_false (by decide) _ hmem),
        collapseStrip_id hmem hdbl hhead hlast, synLoop_id hsyn,
        collapseStrip_id hmem hdbl hhead hlast]
    rw [hlist]
    cases n
    rfl

/-- C2 amended, witness: `"Regur"` normalizes to the canonical, stopword-free,
key-free `"black"`, on which normalization is idempotent. -/
theorem C2_amended_witness :
    canonicalSoilStr (norm "Regur") = true
      ∧ hasStopwordRun (norm "Regur").toList = false
      ∧ hasSynonymKey (norm "Regur").toList = false
      ∧ norm (norm "Regur") = norm "Regur" :=
  ⟨by decide, by decide, by decide,
   C2_amended "Regur" (by decide) (by decide) (by decide)⟩

/-! ## Claim C9 — the correction-block guarantee

`_ensure_but_block_present` skips appending whenever the text already has a
whole-word "but if", mentions the declared soil anywhere, and has a
sowing/harvest/fertilizer keyword after the first "but" — even if no
"but if you truly have" segment exists.  Outside that skip, the block (which
always starts `"But if you truly have <label>: "`) is appended. -/

theorem prefix_self (x : String) : ∃ r, x.toList = x.toList ++ r := ⟨[], by simp⟩

theorem prefix_extend {pre : List Char} {x : String} (h : ∃ r, x.toList = pre ++ r)
    (y : String) : ∃ r, (x ++ y).toList = pre ++ r := by
  obtain ⟨r, hr⟩ := h
  refine ⟨r ++ y.toList, ?_⟩
  show x.toList ++ y.toList = pre ++ (r ++ y.toList)
  rw [hr, List.append_assoc]

theorem build_but_block_prefix (frs : Option String) (entries : List CropEntry)
    (ph oc : Option ℚ) (month season smonths : Option String) (h : optTruthy frs = true) :
    ∃ rest, (build_but_block frs entries ph oc month season smonths).toList
      = ("But if you truly have " ++ display_soil_label frs).toList ++ rest := by
  unfold build_but_block
  simp only [h, if_true]
  by_cases he : entries.isEmpty = true
  · rw [if_neg (by simp [he])]
    exact prefix_extend (prefix_extend (prefix_extend (prefix_self _) _) _) _
  · rw [if_pos (by simp [he])]
    exact prefix_extend (prefix_extend (prefix_self _) _) _

theorem isPrefixOf_self_append (n r : List Char) : n.isPrefixOf (n ++ r) = true := by
  induction n with
  | nil => simp [List.isPrefixOf]
  | cons c cs ih => simp [List.isPrefixOf, ih]

theorem build_but_block_ne_empty (frs : Option String) (entries : List CropEntry)
    (ph oc : Option ℚ) (month season smonths : Option String) (h : optTruthy frs = true) :
    ¬ build_but_block frs entries ph oc month season smonths = "" := by
  obtain ⟨rest, hrest⟩ := build_but_block_prefix frs entries ph oc month season smonths h
  intro h0
  rw [h0] at hrest
  rw [show ("But if you truly have " ++ display_soil_label frs).toList
      = 'B' :: ("ut if you truly have ".toList ++ (display_soil_label frs).toList) from rfl]
    at hrest
  exact absurd hrest.symm (by simp)

theorem ensure_appends_block (df : List Row) (excelSome : Bool) (out_text : String)
    (frs : Option String) (ph oc temp : Option ℚ) (month season smonths : Option String)
    (hf : optTruthy frs = true)
    (hskip : butSkipCond out_text (frs.getD "") = false) :
    containsSubList ("But if you truly have " ++ display_soil_label frs).toList
      (ensure_but_block_present df excelSome out_text false frs ph oc temp month season
        smonths).toList = true := by
  unfold ensure_but_block_present
  rw [if_neg (by simp [hf]), if_neg (by simp [hskip]),
    if_neg (build_but_block_ne_empty frs (ensureEntries df excelSome (frs.getD "") temp season)
      ph oc month season smonths hf)]
  obtain ⟨rest, hrest⟩ :=
    build_but_block_prefix frs (ensureEntries df excelSome (frs.getD "") temp season)
      ph oc month season smonths hf
  have hsplit : (stripStr out_text ++ "\n\n"
        ++ build_but_block frs (ensureEntries df excelSome (frs.getD "") temp season)
          ph oc month season smonths).toList
      = (stripStr out_text ++ "\n\n").toList
        ++ (build_but_block frs (ensureEntries df excelSome (frs.getD "") temp season)
          ph oc month season smonths).toList := rfl
  rw [hsplit, hrest]
  exact containsSubList_append_right _
    (containsSubList_of_isPrefixOf (isPrefixOf_self_append _ _))

/-- The generator output used by the C9 counterexample: it already contains a
whole-word "but if", the declared soil, a sowing keyword after the "but" and a
fertilizer keyword, so the guarantee step leaves it untouched. -/
def cexText : String :=
  "You have clay soil. But if rains come, delay sowing. Fertilizer: Compost."

set_option maxRecDepth 20000 in
/-- C9 counterexample: with an unverified assessment, declared soil "clay" and
this generator output, `generate_advice` returns the text unchanged, and the
result contains no "but if you truly have" segment at all. -/
theorem C9_counterexample :
    generate_advice [] true
        (some { soil_type := some "clay", source := some "farmer_input_unverified" })
        none "Rabi" "" CropsArg.other none none (some "clay") none none (some cexText)
      = cexText
      ∧ containsSubList "but if you truly have".toList (pyLowerStr cexText).toList = false := by
  refine ⟨by rfl, by decide⟩

/-- C9 amended: for an unverified synthesis (`ga_effConfirmed = false`) with a
non-empty declared soil — on the generator path for every generator output and
on the deterministic fallback path — the final text of `generate_advice`
contains "But if you truly have" followed by the declared soil's display
label, **except** when the pre-block text already passes the skip test
(whole-word "but if" + soil mention + sowing/harvest/fertilizer keyword after
the first "but"), in which case the text is returned unchanged even without
such a segment. -/
theorem C9_amended (df : List Row) (excelSome : Bool) (soil_info : Option SoilAssessment)
    (weather : Option WeatherInfo) (season season_months : String) (crops : CropsArg)
    (query state frs : Option String) (confirmed : Option Bool) (month_name : Option String)
    (gemini : Option String)
    (hconf : ga_effConfirmed soil_info confirmed = false)
    (hf : optTruthy frs = true)
    (hskip : butSkipCond
        (ga_preText df excelSome soil_info weather season season_months crops query state frs
          confirmed month_name gemini) (frs.getD "") = false) :
    containsSubList ("But if you truly have " ++ display_soil_label frs).toList
      (generate_advice df excelSome soil_info weather season season_months crops query state
        frs confirmed month_name gemini).toList = true := by
  unfold generate_advice
  rw [hconf]
  exact ensure_appends_block _ _ _ _ _ _ _ _ _ _ hf hskip

set_option maxRecDepth 20000 in
/-- C9 amended, witness: fallback path (no generator), declared soil "clay",
unverified; the deterministic fallback text does not trip the skip test and
the final text carries the "But if you truly have clay soil" block. -/
theorem C9_amended_witness :
    containsSubList ("But if you truly have " ++ display_soil_label (some "clay")).toList
      (generate_advice [] true
        (some { soil_type := some "clay", source := some "farmer_input_unverified" })
        none "Rabi" "" CropsArg.other none none (some "clay") none none none).toList = true :=
  C9_amended [] true
    (some { soil_type := some "clay", source := some "farmer_input_unverified" })
    none "Rabi" "" CropsArg.other none none (some "clay") none none none
    (by rfl) (by decide) (by decide)

end SIH
